import Mathlib

/-!
# ECR gameplay glue: pawn control component, character movement tags, indicator registry

Shallow embedding of
* `Source/ECR/Private/Gameplay/Character/ECRPawnControlComponent.cpp`
* `Source/ECR/Private/Gameplay/Character/ECRCharacter.cpp`
* `Source/ECR/Private/GUI/IndicatorSystem/ECRIndicatorManagerComponent.cpp`

Engine objects are represented by the observations the code makes of them.
Pointers are `Option`s (`none` is `nullptr`), calls into the engine are recorded
in a call trace, and a failed `check`/`CastChecked` aborts with a `Fault`.
-/

namespace ECR

/-! ## Engine-side data -/

/-- Identity of an engine object (its address). -/
abbrev ObjectId := Nat

/-- Network role of an actor (`ENetRole`). -/
inductive ENetRole where
  | ROLE_None
  | ROLE_SimulatedProxy
  | ROLE_AutonomousProxy
  | ROLE_Authority
  deriving DecidableEq, Repr

/-- Failure of a fatal assertion. -/
inductive Fault where
  | CheckFailed (expr : String)
  | CastCheckedFailed (cls : String)
  | NullDereference (expr : String)
  deriving DecidableEq, Repr

/-- Gameplay tag: a hierarchical name, `Movement.Mode.Falling` being
`["Movement", "Mode", "Falling"]`; the empty name is `NAME_None`. -/
structure FGameplayTag where
  TagName : List String
  deriving DecidableEq, Repr

namespace FGameplayTag

/-- The tag `FGameplayTag()`; it is the only invalid tag. -/
def EmptyTag : FGameplayTag := ⟨[]⟩

/-- Engine `FGameplayTag::IsValid`: the name is not `NAME_None`. -/
def IsValid (t : FGameplayTag) : Bool := !t.TagName.isEmpty

/-- Whether the name `p` is an initial segment of the name `n`. -/
def nameStartsWith : List String → List String → Bool
  | _, [] => true
  | [], _ :: _ => false
  | a :: n, b :: p => a == b && nameStartsWith n p

/-- Engine `FGameplayTag::MatchesTag`: `t` is `other` or one of its descendants. -/
def MatchesTag (t other : FGameplayTag) : Bool :=
  other.IsValid && nameStartsWith t.TagName other.TagName

end FGameplayTag

/-- Handle of a granted ability; the default handle is `INDEX_NONE`. -/
structure FGameplayAbilitySpecHandle where
  Handle : Int
  deriving DecidableEq, Repr

/-- The handle `FGameplayAbilitySpecHandle()`. -/
def FGameplayAbilitySpecHandle.Default : FGameplayAbilitySpecHandle := ⟨-1⟩

/-- A camera mode class (`TSubclassOf<UECRCameraMode>`), by identity. -/
abbrev CameraModeClass := ObjectId

/-- The floating-point operations used by the input handlers. The handlers only
branch on the results, so the operations are taken as they are, with no law
assumed of them (`le` and `ne` are both false on a NaN operand of IEEE floats,
and so on). -/
structure FloatOps (F : Type) where
  add : F → F → F
  abs : F → F
  le : F → F → Bool
  ne : F → F → Bool
  zero : F
  c180 : F

/-- Exact integer arithmetic as an instance of the float operations. -/
def intOps : FloatOps Int where
  add := fun a b => a + b
  abs := fun a => |a|
  le := fun a b => decide (a ≤ b)
  ne := fun a b => decide (a ≠ b)
  zero := 0
  c180 := 180

/-- Dynamic class of a controller. `AECRPlayerController` derives from
`APlayerController`; both and `AAIController` derive from `AController`. -/
inductive EControllerClass where
  | Controller
  | AIController
  | PlayerController
  | ECRPlayerController
  deriving DecidableEq, Repr

/-- Whether `Cast<target>` succeeds on an object of dynamic class `cls`. -/
def EControllerClass.IsA (cls target : EControllerClass) : Bool :=
  match target, cls with
  | .Controller, _ => true
  | .AIController, .AIController => true
  | .PlayerController, .PlayerController => true
  | .PlayerController, .ECRPlayerController => true
  | .ECRPlayerController, .ECRPlayerController => true
  | _, _ => false

/-- What the code reads of a player state. -/
structure APlayerState where
  Id : ObjectId
  Owner : Option ObjectId
  deriving DecidableEq, Repr

/-- What the code reads of a local player. -/
structure ULocalPlayer where
  Id : ObjectId
  /-- `GetSubsystem<UEnhancedInputLocalPlayerSubsystem>()`. -/
  EnhancedInputSubsystem : Option ObjectId
  deriving DecidableEq, Repr

/-- What the code reads of a controller. -/
structure AController where
  Id : ObjectId
  Class : EControllerClass
  PlayerState : Option APlayerState
  /-- `APlayerController::GetLocalPlayer()`. -/
  LocalPlayer : Option ULocalPlayer
  deriving DecidableEq, Repr

/-- What the code reads of an input component. -/
structure UInputComponent where
  Id : ObjectId
  /-- Whether the object is a `UECRInputComponent`. -/
  bIsECRInputComponent : Bool
  deriving DecidableEq, Repr

/-- What the code reads of the pawn data asset. -/
structure UECRPawnData where
  Id : ObjectId
  DefaultCameraMode : Option CameraModeClass
  InputConfig : Option ObjectId
  deriving DecidableEq, Repr

/-- What the code reads of the pawn extension component. -/
structure UECRPawnExtensionComponent where
  Id : ObjectId
  /-- `GetPawnData<UECRPawnData>()`. -/
  PawnData : Option UECRPawnData
  deriving DecidableEq, Repr

/-- What the code reads of the pawn owning the component. -/
structure APawn (F : Type) where
  Id : ObjectId
  LocalRole : ENetRole
  bIsLocallyControlled : Bool
  bIsBotControlled : Bool
  InputComponent : Option UInputComponent
  /-- `UECRPawnExtensionComponent::FindPawnExtensionComponent(Pawn)`. -/
  PawnExtComp : Option UECRPawnExtensionComponent
  /-- `Cast<IAbilitySystemInterface>(Pawn)`, and inside it
  `Cast<UECRAbilitySystemComponent>(GetAbilitySystemComponent())`. -/
  AbilitySystemInterface : Option (Option ObjectId)
  /-- `UECRCameraComponent::FindCameraComponent(Pawn)`. -/
  CameraComponent : Option ObjectId
  /-- Outputs of `UCoreExtendingFunctionLibrary::GetPawnAimOffsetDifference`. -/
  CurrentPitchDiff : F
  CurrentYawDiff : F
  deriving DecidableEq

/-- The owner of a pawn component, as seen through `GetPawn`, `GetPlayerState`
and `GetController`. -/
structure PawnContext (F : Type) where
  /-- `GetPawn<APawn>()`. -/
  Pawn : Option (APawn F)
  /-- `GetPlayerState<AECRPlayerState>()`. -/
  ECRPlayerState : Option APlayerState
  /-- `GetController<AController>()`. -/
  Controller : Option AController
  deriving DecidableEq

/-- The templated `GetController<T>()`. -/
def PawnContext.GetController {F : Type} (ctx : PawnContext F) (target : EControllerClass) :
    Option AController :=
  match ctx.Controller with
  | some c => if c.Class.IsA target then some c else none
  | none => none

/-- An entry of `DefaultInputConfigs`. -/
structure FMappableConfigPair where
  Config : ObjectId
  bShouldActivateAutomatically : Bool
  /-- Result of `CanBeActivated()`. -/
  bCanBeActivated : Bool
  deriving DecidableEq, Repr

/-- The native input handlers bound by `BindNativeActions`. -/
inductive ENativeHandler where
  | Input_LookMouse
  | Input_LookStick
  deriving DecidableEq, Repr

/-- Calls that leave the component, in the order they are made. Entering
`InitInputAndCamera` is recorded as well. -/
inductive Call (F : Type) where
  | EnsureFailed (expr : String)
  | InitializeAbilitySystem (pawnExt : ObjectId) (asc : ObjectId) (owner : ObjectId)
  | InitInputAndCamera
  | ClearAllMappings (subsystem : ObjectId)
  | AddPlayerMappableConfig (subsystem : ObjectId) (config : ObjectId)
  | AddInputMappings (inputComponent : ObjectId) (inputConfig : ObjectId) (subsystem : ObjectId)
  | BindAbilityActions (inputComponent : ObjectId) (inputConfig : ObjectId)
  | BindNativeAction (inputComponent : ObjectId) (inputConfig : ObjectId) (tag : FGameplayTag)
      (handler : ENativeHandler) (bLogIfNotFound : Bool)
  | SendGameFrameworkComponentExtensionEvent (receiver : ObjectId) (event : String)
  | BindDetermineCameraMode (cameraComponent : ObjectId)
  | AddControllerYawInput (pawn : ObjectId) (value : F)
  | AddControllerPitchInput (pawn : ObjectId) (value : F)
  deriving DecidableEq

/-- The part of the native tag table `FECRGameplayTags` that the code reads. The
table itself is filled in outside these sources, so it is a parameter. `TMap`s
are lists of key/value pairs. -/
structure FECRGameplayTags where
  MovementModeTagMap : List (Nat × FGameplayTag)
  CustomMovementModeTagMap : List (Nat × FGameplayTag)
  Movement_Mode_Falling : FGameplayTag
  Movement_Mode_Falling_Standard : FGameplayTag
  Movement_Mode_Falling_JumpPack : FGameplayTag
  Status_JumpFlying : FGameplayTag
  Status_Crouching : FGameplayTag
  GameplayEvent_Landed : FGameplayTag
  GameplayEvent_MovementModeChanged : FGameplayTag
  InputTag_Look_Mouse : FGameplayTag
  InputTag_Look_Stick : FGameplayTag

/-- Engine `TMap::Find`: the value stored under `key`, if any. -/
def TMapFind (m : List (Nat × FGameplayTag)) (key : Nat) : Option FGameplayTag :=
  match m with
  | [] => none
  | (k, v) :: rest => if k = key then some v else TMapFind rest key

/-! ## `UECRPawnControlComponent` -/

/-- Fields of the pawn control component. -/
structure UECRPawnControlComponent (F : Type) where
  AbilityCameraMode : Option CameraModeClass
  AbilityCameraModeOwningSpecHandle : FGameplayAbilitySpecHandle
  bPawnHasInitialized : Bool
  bReadyToBindInputs : Bool
  bMovementInputEnabled : Bool
  bListenForAbilityQueue : Bool
  AbilityQueueDeltaTime : F
  AbilityQueueInputTags : List FGameplayTag
  LookPitchLimit : F
  LookYawLimit : F
  DefaultInputConfigs : List FMappableConfigPair
  deriving DecidableEq

/-- Two-dimensional input value (`FVector2D`). -/
structure FVector2D (F : Type) where
  X : F
  Y : F
  deriving DecidableEq

namespace UECRPawnControlComponent

variable {F : Type}

/-- The constructor's field values. -/
def Constructed (ops : FloatOps F) : UECRPawnControlComponent F where
  AbilityCameraMode := none
  AbilityCameraModeOwningSpecHandle := FGameplayAbilitySpecHandle.Default
  bPawnHasInitialized := false
  bReadyToBindInputs := false
  bMovementInputEnabled := true
  bListenForAbilityQueue := false
  AbilityQueueDeltaTime := ops.zero
  AbilityQueueInputTags := []
  LookPitchLimit := ops.c180
  LookYawLimit := ops.c180
  DefaultInputConfigs := []

/-- `UECRPawnControlComponent::IsPawnComponentReadyToInitialize`. -/
def IsPawnComponentReadyToInitialize (ctx : PawnContext F) (_self : UECRPawnControlComponent F) :
    Bool :=
  -- The player state is required.
  match ctx.ECRPlayerState with
  | none => false
  | some _ =>
    -- A pawn is required.
    match ctx.Pawn with
    | none => false
    | some Pawn =>
      let bPaired : Bool :=
        if Pawn.LocalRole ≠ ENetRole.ROLE_SimulatedProxy then
          match ctx.GetController EControllerClass.Controller with
          | none => false
          | some Controller =>
            match Controller.PlayerState with
            | none => false
            | some PS => decide (PS.Owner = some Controller.Id)
        else true
      if !bPaired then false
      else
        let bIsLocallyControlled := Pawn.bIsLocallyControlled
        let bIsBot := Pawn.bIsBotControlled
        if bIsLocallyControlled && !bIsBot then
          -- The input component is required when locally controlled.
          match Pawn.InputComponent with
          | none => false
          | some _ => true
        else true

/-- `UECRPawnControlComponent::BindNativeActions`. -/
def BindNativeActions (G : FECRGameplayTags) (ECRIC : ObjectId) (InputConfig : ObjectId) :
    List (Call F) :=
  [Call.BindNativeAction ECRIC InputConfig G.InputTag_Look_Mouse ENativeHandler.Input_LookMouse true,
   Call.BindNativeAction ECRIC InputConfig G.InputTag_Look_Stick ENativeHandler.Input_LookStick false]

/-- The loop of `InitializePlayerInput` over `DefaultInputConfigs`. -/
def RegisterDefaultInputConfigs (Subsystem : ObjectId) (configs : List FMappableConfigPair) :
    List (Call F) :=
  match configs with
  | [] => []
  | Pair :: rest =>
    (if Pair.bShouldActivateAutomatically && Pair.bCanBeActivated then
      [Call.AddPlayerMappableConfig Subsystem Pair.Config]
    else []) ++ RegisterDefaultInputConfigs Subsystem rest

/-- `UECRPawnControlComponent::InitializePlayerInput`. -/
def InitializePlayerInput (G : FECRGameplayTags) (ctx : PawnContext F)
    (self : UECRPawnControlComponent F) (PlayerInputComponent : Option UInputComponent) :
    Except Fault (UECRPawnControlComponent F × List (Call F)) :=
  match PlayerInputComponent with
  | none => Except.error (Fault.CheckFailed "PlayerInputComponent")
  | some PIC =>
    match ctx.Pawn with
    | none => Except.ok (self, [])
    | some Pawn =>
      match ctx.GetController EControllerClass.PlayerController with
      | none => Except.error (Fault.CheckFailed "PC")
      | some PC =>
        match PC.LocalPlayer with
        | none => Except.error (Fault.CheckFailed "LP")
        | some LP =>
          match LP.EnhancedInputSubsystem with
          | none => Except.error (Fault.CheckFailed "Subsystem")
          | some Subsystem =>
            let t0 : List (Call F) := [Call.ClearAllMappings Subsystem]
            let bound : Except Fault (List (Call F)) :=
              match Pawn.PawnExtComp with
              | none => Except.ok []
              | some PawnExtComp =>
                match PawnExtComp.PawnData with
                | none => Except.ok []
                | some PawnData =>
                  match PawnData.InputConfig with
                  | none => Except.ok []
                  | some InputConfig =>
                    let t1 := RegisterDefaultInputConfigs Subsystem self.DefaultInputConfigs
                    if PIC.bIsECRInputComponent then
                      Except.ok (t1 ++ [Call.AddInputMappings PIC.Id InputConfig Subsystem,
                                        Call.BindAbilityActions PIC.Id InputConfig]
                                    ++ BindNativeActions G PIC.Id InputConfig)
                    else Except.error (Fault.CastCheckedFailed "UECRInputComponent")
            match bound with
            | Except.error e => Except.error e
            | Except.ok t1 =>
              let (self1, t2) : UECRPawnControlComponent F × List (Call F) :=
                if !self.bReadyToBindInputs then ({ self with bReadyToBindInputs := true }, [])
                else (self, [Call.EnsureFailed "!bReadyToBindInputs"])
              Except.ok (self1, t0 ++ t1 ++ t2 ++
                [Call.SendGameFrameworkComponentExtensionEvent PC.Id "BindInputsNow",
                 Call.SendGameFrameworkComponentExtensionEvent Pawn.Id "BindInputsNow"])

/-- `UECRPawnControlComponent::InitInputAndCamera`. -/
def InitInputAndCamera (G : FECRGameplayTags) (ctx : PawnContext F)
    (self : UECRPawnControlComponent F) :
    Except Fault (UECRPawnControlComponent F × List (Call F)) :=
  match ctx.Pawn with
  | none => Except.ok (self, [Call.InitInputAndCamera])
  | some Pawn =>
    let bIsLocallyControlled := Pawn.bIsLocallyControlled
    -- Init input
    let input : Except Fault (UECRPawnControlComponent F × List (Call F)) :=
      match ctx.GetController EControllerClass.ECRPlayerController with
      | none => Except.ok (self, [])
      | some _ =>
        match Pawn.InputComponent with
        | none => Except.ok (self, [])
        | some IC => InitializePlayerInput G ctx self (some IC)
    match input with
    | Except.error e => Except.error e
    | Except.ok (self1, t1) =>
      let PawnData : Option UECRPawnData :=
        match Pawn.PawnExtComp with
        | none => none
        | some PawnExtComp => PawnExtComp.PawnData
      let t2 : List (Call F) :=
        if bIsLocallyControlled && PawnData.isSome then
          match Pawn.CameraComponent with
          | none => []
          | some CameraComponent => [Call.BindDetermineCameraMode CameraComponent]
        else []
      Except.ok (self1, [Call.InitInputAndCamera] ++ t1 ++ t2)

/-- `UECRPawnControlComponent::OnPawnReadyToInitialize`. -/
def OnPawnReadyToInitialize (G : FECRGameplayTags) (ctx : PawnContext F)
    (self : UECRPawnControlComponent F) :
    Except Fault (UECRPawnControlComponent F × List (Call F)) :=
  if self.bPawnHasInitialized then
    -- Don't initialize twice
    Except.ok (self, [Call.EnsureFailed "!bPawnHasInitialized"])
  else
    match ctx.Pawn with
    | none => Except.ok (self, [])
    | some Pawn =>
      match ctx.ECRPlayerState with
      | none => Except.error (Fault.CheckFailed "ECRPS")
      | some _ =>
        let t1 : List (Call F) :=
          match Pawn.PawnExtComp with
          | none => []
          | some PawnExtComp =>
            match Pawn.AbilitySystemInterface with
            | none => []
            | some none => []
            | some (some EASC) => [Call.InitializeAbilitySystem PawnExtComp.Id EASC Pawn.Id]
        match InitInputAndCamera G ctx self with
        | Except.error e => Except.error e
        | Except.ok (self1, t2) =>
          Except.ok ({ self1 with bPawnHasInitialized := true }, t1 ++ t2)

/-- `UECRPawnControlComponent::DetermineCameraMode`. -/
def DetermineCameraMode (ctx : PawnContext F) (self : UECRPawnControlComponent F) :
    Option CameraModeClass :=
  match self.AbilityCameraMode with
  | some m => some m
  | none =>
    match ctx.Pawn with
    | none => none
    | some Pawn =>
      match Pawn.PawnExtComp with
      | none => none
      | some PawnExtComp =>
        match PawnExtComp.PawnData with
        | none => none
        | some PawnData => PawnData.DefaultCameraMode

/-- `UECRPawnControlComponent::Input_LookMouse`: the controller input calls made. -/
def Input_LookMouse (ops : FloatOps F) (ctx : PawnContext F) (self : UECRPawnControlComponent F)
    (Value : FVector2D F) : List (Call F) :=
  match ctx.Pawn with
  | none => []
  | some Pawn =>
    let CurrentPitchDiff := Pawn.CurrentPitchDiff
    let CurrentYawDiff := Pawn.CurrentYawDiff
    let yaw : List (Call F) :=
      if ops.ne Value.X ops.zero then
        if ops.ne self.LookYawLimit ops.c180 then
          -- Locked yaw, need to check if input is allowed
          if ops.le (ops.abs (ops.add CurrentYawDiff Value.X)) self.LookYawLimit then
            [Call.AddControllerYawInput Pawn.Id Value.X]
          else []
        else [Call.AddControllerYawInput Pawn.Id Value.X]
      else []
    let pitch : List (Call F) :=
      if ops.ne Value.Y ops.zero then
        if ops.ne self.LookPitchLimit ops.c180 then
          -- Locked pitch, need to check if input is allowed
          if ops.le (ops.abs (ops.add CurrentPitchDiff Value.Y)) self.LookPitchLimit then
            [Call.AddControllerPitchInput Pawn.Id Value.Y]
          else []
        else [Call.AddControllerPitchInput Pawn.Id Value.Y]
      else []
    yaw ++ pitch

end UECRPawnControlComponent

/-! ## Ability system component: loose gameplay tag counts -/

/-- Engine `FGameplayTagCountContainer::SetTagCount` on the explicit tag count
map: the count stored for `Tag` becomes `NewCount`. -/
def SetTagCount (m : List (FGameplayTag × Nat)) (Tag : FGameplayTag) (NewCount : Nat) :
    List (FGameplayTag × Nat) :=
  match m with
  | [] => [(Tag, NewCount)]
  | (k, c) :: rest =>
    if k = Tag then (Tag, NewCount) :: rest else (k, c) :: SetTagCount rest Tag NewCount

/-- The count stored for `Tag` in the explicit tag count map, 0 when absent. -/
def GetExplicitTagCount (m : List (FGameplayTag × Nat)) (Tag : FGameplayTag) : Nat :=
  match m with
  | [] => 0
  | (k, c) :: rest => if k = Tag then c else GetExplicitTagCount rest Tag

/-- What the code reads and writes of the ability system component. -/
structure UECRAbilitySystemComponent where
  /-- Explicit tag counts of the component. -/
  ExplicitTagCountMap : List (FGameplayTag × Nat)
  deriving DecidableEq, Repr

namespace UECRAbilitySystemComponent

/-- Engine `UAbilitySystemComponent::SetLooseGameplayTagCount`. -/
def SetLooseGameplayTagCount (ASC : UECRAbilitySystemComponent) (Tag : FGameplayTag)
    (NewCount : Nat) : UECRAbilitySystemComponent :=
  { ASC with ExplicitTagCountMap := SetTagCount ASC.ExplicitTagCountMap Tag NewCount }

/-- The loose count of `Tag`: the explicit count stored for it, which is the
value `SetLooseGameplayTagCount` sets. -/
def LooseGameplayTagCount (ASC : UECRAbilitySystemComponent) (Tag : FGameplayTag) : Nat :=
  GetExplicitTagCount ASC.ExplicitTagCountMap Tag

/-- Engine `UAbilitySystemComponent::HasMatchingGameplayTag`: some tag with a
positive count is `Tag` or one of its descendants. -/
def HasMatchingGameplayTag (ASC : UECRAbilitySystemComponent) (Tag : FGameplayTag) : Bool :=
  ASC.ExplicitTagCountMap.any (fun e => decide (0 < e.2) && e.1.MatchesTag Tag)

end UECRAbilitySystemComponent

/-! ## `AECRCharacter` -/

/-- Engine `EMovementMode`. -/
inductive EMovementMode where
  | MOVE_None
  | MOVE_Walking
  | MOVE_NavWalking
  | MOVE_Falling
  | MOVE_Swimming
  | MOVE_Flying
  | MOVE_Custom
  | MOVE_MAX
  deriving DecidableEq, Repr

/-- Numeric value of a movement mode, the key type of `MovementModeTagMap`. -/
def EMovementMode.toUInt8 : EMovementMode → Nat
  | .MOVE_None => 0
  | .MOVE_Walking => 1
  | .MOVE_NavWalking => 2
  | .MOVE_Falling => 3
  | .MOVE_Swimming => 4
  | .MOVE_Flying => 5
  | .MOVE_Custom => 6
  | .MOVE_MAX => 7

/-- What the code reads of the character movement component. -/
structure UECRCharacterMovementComponent where
  MovementMode : EMovementMode
  CustomMovementMode : Nat
  deriving DecidableEq, Repr

/-- Fields of the character that the tag bookkeeping uses. -/
structure AECRCharacter where
  /-- `GetECRAbilitySystemComponent()` returns this member. -/
  AbilitySystemComponent : Option UECRAbilitySystemComponent
  /-- `GetCharacterMovement()`, always a `UECRCharacterMovementComponent`. -/
  CharacterMovement : UECRCharacterMovementComponent
  deriving DecidableEq, Repr

namespace AECRCharacter

/-- The lookup at the start of `SetMovementModeTag`. -/
def FindMovementModeTag (G : FECRGameplayTags) (MovementMode : EMovementMode)
    (CustomMovementMode : Nat) : Option FGameplayTag :=
  if MovementMode = EMovementMode.MOVE_Custom then
    TMapFind G.CustomMovementModeTagMap CustomMovementMode
  else
    TMapFind G.MovementModeTagMap MovementMode.toUInt8

/-- The body of `SetMovementModeTag` under `if (ECRASC)`. -/
def SetMovementModeTagOn (G : FECRGameplayTags) (ECRASC : UECRAbilitySystemComponent)
    (MovementMode : EMovementMode) (CustomMovementMode : Nat) (bTagEnabled : Bool) :
    UECRAbilitySystemComponent :=
  match FindMovementModeTag G MovementMode CustomMovementMode with
  | none => ECRASC
  | some MovementModeTag =>
    if MovementModeTag.IsValid then
      let ASC1 := ECRASC.SetLooseGameplayTagCount MovementModeTag (if bTagEnabled then 1 else 0)
      -- Set falling tag depending on whether jump pack or not
      if MovementModeTag = G.Movement_Mode_Falling then
        if !bTagEnabled then
          let ASC2 := ASC1.SetLooseGameplayTagCount G.Movement_Mode_Falling_Standard 0
          ASC2.SetLooseGameplayTagCount G.Movement_Mode_Falling_JumpPack 0
        else
          if ASC1.HasMatchingGameplayTag G.Status_JumpFlying then
            ASC1.SetLooseGameplayTagCount G.Movement_Mode_Falling_JumpPack 1
          else
            ASC1.SetLooseGameplayTagCount G.Movement_Mode_Falling_Standard 1
      else ASC1
    else ECRASC

/-- `AECRCharacter::SetMovementModeTag`. -/
def SetMovementModeTag (G : FECRGameplayTags) (self : AECRCharacter)
    (MovementMode : EMovementMode) (CustomMovementMode : Nat) (bTagEnabled : Bool) :
    AECRCharacter :=
  match self.AbilitySystemComponent with
  | none => self
  | some ECRASC =>
    let ASC1 := SetMovementModeTagOn G ECRASC MovementMode CustomMovementMode bTagEnabled
    { self with AbilitySystemComponent := some ASC1 }

/-- The two loops of `InitializeGameplayTags`: every valid value of the map is
set to count 0. -/
def ClearTagMap (ECRASC : UECRAbilitySystemComponent) (m : List (Nat × FGameplayTag)) :
    UECRAbilitySystemComponent :=
  match m with
  | [] => ECRASC
  | TagMapping :: rest =>
    if TagMapping.2.IsValid then
      ClearTagMap (ECRASC.SetLooseGameplayTagCount TagMapping.2 0) rest
    else ClearTagMap ECRASC rest

/-- `AECRCharacter::InitializeGameplayTags`. -/
def InitializeGameplayTags (G : FECRGameplayTags) (self : AECRCharacter) : AECRCharacter :=
  -- Clear tags that may be lingering on the ability system from the previous pawn.
  match self.AbilitySystemComponent with
  | none => self
  | some ECRASC =>
    let ASC1 := ClearTagMap ECRASC G.MovementModeTagMap
    let ASC2 := ClearTagMap ASC1 G.CustomMovementModeTagMap
    -- Two blocking movement modes
    let ASC3 := ASC2.SetLooseGameplayTagCount G.Movement_Mode_Falling_Standard 0
    let ASC4 := ASC3.SetLooseGameplayTagCount G.Movement_Mode_Falling_JumpPack 0
    let ECRMoveComp := self.CharacterMovement
    SetMovementModeTag G { self with AbilitySystemComponent := some ASC4 }
      ECRMoveComp.MovementMode ECRMoveComp.CustomMovementMode true

/-- The loose count of `Tag` on the character's ability system component. -/
def LooseTagCount (self : AECRCharacter) (Tag : FGameplayTag) : Option Nat :=
  self.AbilitySystemComponent.map (fun ASC => ASC.LooseGameplayTagCount Tag)

end AECRCharacter

/-! ## `UECRIndicatorManagerComponent` -/

/-- What the code reads and writes of an indicator descriptor. -/
structure UIndicatorDescriptor where
  Id : ObjectId
  /-- `GetIndicatorManagerComponent()`. -/
  ManagerPtr : Option ObjectId
  /-- `GetWantsNonDefaultHandling()`. -/
  bWantsNonDefaultHandling : Bool
  deriving DecidableEq, Repr

/-- Delegate broadcasts and overridable hooks of the indicator manager. -/
inductive IndicatorEvent where
  | OnIndicatorAdded (d : ObjectId)
  | OnIndicatorRemoved (d : ObjectId)
  | OnNonDefaultHandledIndicatorAdded (d : ObjectId)
  | OnNonDefaultHandledIndicatorRemoved (d : ObjectId)
  | EnsureFailed (expr : String)
  deriving DecidableEq, Repr

/-- Fields of the indicator manager; `Indicators` holds descriptor pointers. -/
structure UECRIndicatorManagerComponent where
  Id : ObjectId
  Indicators : List ObjectId
  deriving DecidableEq, Repr

/-- Outcome of a manager call: the manager, the descriptor passed in, and the
events raised. -/
structure IndicatorResult where
  Manager : UECRIndicatorManagerComponent
  Descriptor : Option UIndicatorDescriptor
  Events : List IndicatorEvent
  deriving DecidableEq, Repr

namespace UECRIndicatorManagerComponent

/-- `UECRIndicatorManagerComponent::AddIndicator`. The descriptor is
dereferenced without a null test. -/
def AddIndicator (self : UECRIndicatorManagerComponent)
    (IndicatorDescriptor : Option UIndicatorDescriptor) : Except Fault IndicatorResult :=
  match IndicatorDescriptor with
  | none => Except.error (Fault.NullDereference "IndicatorDescriptor")
  | some d =>
    let d1 := { d with ManagerPtr := some self.Id }
    if d1.bWantsNonDefaultHandling then
      Except.ok ⟨self, some d1, [IndicatorEvent.OnNonDefaultHandledIndicatorAdded d1.Id]⟩
    else
      Except.ok ⟨{ self with Indicators := self.Indicators ++ [d1.Id] }, some d1,
        [IndicatorEvent.OnIndicatorAdded d1.Id]⟩

/-- `UECRIndicatorManagerComponent::RemoveIndicator`; `TArray::Remove` removes
every matching element. -/
def RemoveIndicator (self : UECRIndicatorManagerComponent)
    (IndicatorDescriptor : Option UIndicatorDescriptor) : IndicatorResult :=
  match IndicatorDescriptor with
  | none => ⟨self, none, []⟩
  | some d =>
    let e0 : List IndicatorEvent :=
      if d.ManagerPtr = some self.Id then []
      else [IndicatorEvent.EnsureFailed "IndicatorDescriptor->GetIndicatorManagerComponent() == this"]
    if d.bWantsNonDefaultHandling then
      ⟨self, some d, e0 ++ [IndicatorEvent.OnNonDefaultHandledIndicatorRemoved d.Id]⟩
    else
      ⟨{ self with Indicators := self.Indicators.filter (fun x => decide (x ≠ d.Id)) }, some d,
        e0 ++ [IndicatorEvent.OnIndicatorRemoved d.Id]⟩

end UECRIndicatorManagerComponent

/-! ## Conditions used in the statements -/

/-- The fatal assertions met on the way through `InitInputAndCamera` hold. Input
is set up when the controller is an `AECRPlayerController` and the pawn has an
input component; then the controller must have a local player with an enhanced
input subsystem, and, if the pawn data carries an input config, the input
component must be a `UECRInputComponent`. -/
def InputAssertionsHold {F : Type} (ctx : PawnContext F) (Pawn : APawn F) : Bool :=
  match ctx.Controller, Pawn.InputComponent with
  | some PC, some IC =>
    if PC.Class = EControllerClass.ECRPlayerController then
      (match PC.LocalPlayer with
        | some LP => LP.EnhancedInputSubsystem.isSome
        | none => false) &&
      (match Pawn.PawnExtComp with
        | some PawnExtComp =>
          (match PawnExtComp.PawnData with
            | some PawnData => PawnData.InputConfig.isNone || IC.bIsECRInputComponent
            | none => true)
        | none => true)
    else true
  | _, _ => true

/-! ## World, ability queue and camera-mode ownership -/

/-- What the code reads of the world. `GetWorld()` is dereferenced without a test
wherever this is passed as a plain value. -/
structure UWorld (F : Type) where
  /-- `GetTimeSeconds()`. -/
  TimeSeconds : F
  /-- `Cast<AECRGameState>(GetGameState())`, as its
  `GetCommonCharacterAbilitySets()`; entries may be null. -/
  ECRGameState : Option (List (Option ObjectId))
  deriving DecidableEq

/-- Engine `FGameplayTagContainer::HasTagExact`. -/
def HasTagExact (Container : List FGameplayTag) (TagToCheck : FGameplayTag) : Bool :=
  TagToCheck.IsValid && decide (TagToCheck ∈ Container)

/-- The ability system component together with its ability queue fields. -/
structure UECRAbilitySystemComponentQueue (F : Type) extends UECRAbilitySystemComponent where
  AbilityQueueSystemLastInputTag : FGameplayTag
  AbilityQueueSystemLastInputTagTime : F
  AbilityQueueSystemDeltaTime : F
  deriving DecidableEq

namespace UECRPawnControlComponent

variable {F : Type}

/-- `UECRPawnControlComponent::NotifyAbilityQueueSystem`; `ASC` and the world are
dereferenced without a test. -/
def NotifyAbilityQueueSystem (ops : FloatOps F) (World : UWorld F)
    (self : UECRPawnControlComponent F) (ASC : UECRAbilitySystemComponentQueue F)
    (InputTag : FGameplayTag) : UECRAbilitySystemComponentQueue F :=
  if InputTag.IsValid && self.bListenForAbilityQueue &&
      HasTagExact self.AbilityQueueInputTags InputTag then
    { ASC with
      AbilityQueueSystemLastInputTag := InputTag
      AbilityQueueSystemLastInputTagTime := World.TimeSeconds
      AbilityQueueSystemDeltaTime := self.AbilityQueueDeltaTime }
  else
    { ASC with
      AbilityQueueSystemLastInputTag := FGameplayTag.EmptyTag
      AbilityQueueSystemLastInputTagTime := ops.zero
      AbilityQueueSystemDeltaTime := ops.zero }

/-- `UECRPawnControlComponent::Input_LookStick`: the controller input calls made.
The world returned by `GetWorld()` is asserted with `check(World)`. -/
def Input_LookStick (ops : FloatOps F) (ctx : PawnContext F) (World : Option (UWorld F))
    (self : UECRPawnControlComponent F) (Value : FVector2D F) : Except Fault (List (Call F)) :=
  match ctx.Pawn with
  | none => Except.ok []
  | some Pawn =>
    let CurrentPitchDiff := Pawn.CurrentPitchDiff
    let CurrentYawDiff := Pawn.CurrentYawDiff
    match World with
    | none => Except.error (Fault.CheckFailed "World")
    | some _ =>
      let yaw : List (Call F) :=
        if ops.ne Value.X ops.zero then
          if ops.ne self.LookYawLimit ops.c180 then
            -- Locked yaw, need to check if input is allowed
            if ops.le (ops.abs (ops.add CurrentYawDiff Value.X)) self.LookYawLimit then
              [Call.AddControllerYawInput Pawn.Id Value.X]
            else []
          else [Call.AddControllerYawInput Pawn.Id Value.X]
        else []
      let pitch : List (Call F) :=
        if ops.ne Value.Y ops.zero then
          if ops.ne self.LookPitchLimit ops.c180 then
            -- Locked pitch, need to check if input is allowed
            if ops.le (ops.abs (ops.add CurrentPitchDiff Value.Y)) self.LookPitchLimit then
              [Call.AddControllerPitchInput Pawn.Id Value.Y]
            else []
          else [Call.AddControllerPitchInput Pawn.Id Value.Y]
        else []
      Except.ok (yaw ++ pitch)

/-- `UECRPawnControlComponent::SetAbilityCameraMode`. -/
def SetAbilityCameraMode (self : UECRPawnControlComponent F) (CameraMode : Option CameraModeClass)
    (OwningSpecHandle : FGameplayAbilitySpecHandle) : UECRPawnControlComponent F :=
  match CameraMode with
  | some m =>
    { self with AbilityCameraMode := some m, AbilityCameraModeOwningSpecHandle := OwningSpecHandle }
  | none => self

/-- `UECRPawnControlComponent::ClearAbilityCameraMode`. -/
def ClearAbilityCameraMode (self : UECRPawnControlComponent F)
    (OwningSpecHandle : FGameplayAbilitySpecHandle) : UECRPawnControlComponent F :=
  if self.AbilityCameraModeOwningSpecHandle = OwningSpecHandle then
    { self with
      AbilityCameraMode := none
      AbilityCameraModeOwningSpecHandle := FGameplayAbilitySpecHandle.Default }
  else self

end UECRPawnControlComponent

/-! ## The character as an actor: roles, falling, crouching, ability sets -/

/-- Float operations with the subtraction used for the falling distance. -/
structure FloatArith (F : Type) extends FloatOps F where
  sub : F → F → F

/-- Exact integer arithmetic as an instance of `FloatArith`. -/
def intArith : FloatArith Int where
  toFloatOps := intOps
  sub := fun a b => a - b

/-- Payload of a gameplay event; the fields the code sets. -/
structure FGameplayEventData (F : Type) where
  EventTag : FGameplayTag
  Target : Option ObjectId
  EventMagnitude : F
  deriving DecidableEq

/-- Calls that leave the character, in the order they are made. -/
inductive CharacterCall (F : Type) where
  | Super_OnMovementModeChanged (PrevMovementMode : EMovementMode) (PreviousCustomMode : Nat)
  | SendGameplayEventToActor (Actor : ObjectId) (EventTag : FGameplayTag)
      (Payload : FGameplayEventData F)
  | DetachFromControllerPendingDestroy
  | SetLifeSpan (InLifespan : ℚ)
  | UninitializeAbilitySystem
  | SetActorHiddenInGame (bNewHidden : Bool)
  | Super_OnStartCrouch (HalfHeightAdjust : F) (ScaledHalfHeightAdjust : F)
  | Super_OnEndCrouch (HalfHeightAdjust : F) (ScaledHalfHeightAdjust : F)
  | EnsureFailed (expr : String)
  | MarkPropertyDirty (property : String)
  | GiveToAbilitySystem (AbilitySet : ObjectId)
  | SendGameFrameworkComponentExtensionEvent (receiver : ObjectId) (event : String)
  | ForceNetUpdate
  deriving DecidableEq

/-- The character with the actor state its other methods use. -/
structure AECRCharacterActor (F : Type) extends AECRCharacter where
  Id : ObjectId
  /-- `GetLocalRole()`. -/
  LocalRole : ENetRole
  StartedFallingTime : F
  StartedFallingZ : F
  /-- `GetActorLocation().Z`. -/
  ActorLocationZ : F
  /-- `GetAvatarActor()` of the ability system component. -/
  AbilitySystemAvatarActor : Option ObjectId
  /-- The `PawnData` member, as its `AbilitySets`; entries may be null. -/
  PawnData : Option (List (Option ObjectId))
  deriving DecidableEq

namespace AECRCharacter

variable {F : Type}

/-- `AECRCharacter::UninitAndDestroy`: the calls made. -/
def UninitAndDestroy (self : AECRCharacterActor F) : List (CharacterCall F) :=
  let t1 : List (CharacterCall F) :=
    if self.LocalRole = ENetRole.ROLE_Authority then
      [CharacterCall.DetachFromControllerPendingDestroy, CharacterCall.SetLifeSpan (1 / 10)]
    else []
  -- Uninitialize the ASC if we're still the avatar actor
  let t2 : List (CharacterCall F) :=
    match self.AbilitySystemComponent with
    | none => []
    | some _ =>
      if self.AbilitySystemAvatarActor = some self.Id then
        [CharacterCall.UninitializeAbilitySystem]
      else []
  t1 ++ t2 ++ [CharacterCall.SetActorHiddenInGame true]

/-- `AECRCharacter::OnMovementModeChanged`; the movement component already holds
the new mode. -/
def OnMovementModeChanged (ops : FloatArith F) (G : FECRGameplayTags) (World : UWorld F)
    (self : AECRCharacterActor F) (PrevMovementMode : EMovementMode) (PreviousCustomMode : Nat) :
    AECRCharacterActor F × List (CharacterCall F) :=
  let ECRMoveComp := self.CharacterMovement
  -- Sending movement tag for possible blocking of some abilities
  let c1 := SetMovementModeTag G self.toAECRCharacter PrevMovementMode PreviousCustomMode false
  let c2 := SetMovementModeTag G c1 ECRMoveComp.MovementMode ECRMoveComp.CustomMovementMode true
  let self1 : AECRCharacterActor F := { self with toAECRCharacter := c2 }
  let self2 : AECRCharacterActor F :=
    if ECRMoveComp.MovementMode = EMovementMode.MOVE_Falling then
      { self1 with
        StartedFallingTime := World.TimeSeconds
        StartedFallingZ := self1.ActorLocationZ }
    else self1
  let landed : List (CharacterCall F) :=
    if ECRMoveComp.MovementMode = EMovementMode.MOVE_Falling then []
    else if ECRMoveComp.MovementMode = EMovementMode.MOVE_Walking then
      if PrevMovementMode = EMovementMode.MOVE_Falling then
        match self1.AbilitySystemComponent with
        | none => []
        | some _ =>
          let DistanceFalling := ops.sub self1.StartedFallingZ self1.ActorLocationZ
          -- Sending gameplay event for landing
          [CharacterCall.SendGameplayEventToActor self1.Id G.GameplayEvent_Landed
            ⟨G.GameplayEvent_Landed, some self1.Id, DistanceFalling⟩]
      else []
    else []
  let changed : List (CharacterCall F) :=
    match self2.AbilitySystemComponent with
    | none => []
    | some _ =>
      -- Sending gameplay event for possible interruption of some abilities
      [CharacterCall.SendGameplayEventToActor self2.Id G.GameplayEvent_MovementModeChanged
        ⟨G.GameplayEvent_MovementModeChanged, some self2.Id, ops.zero⟩]
  (self2, [CharacterCall.Super_OnMovementModeChanged PrevMovementMode PreviousCustomMode]
    ++ landed ++ changed)

/-- `AECRCharacter::OnStartCrouch`. -/
def OnStartCrouch (G : FECRGameplayTags) (self : AECRCharacter)
    (HalfHeightAdjust ScaledHalfHeightAdjust : F) : AECRCharacter × List (CharacterCall F) :=
  let self1 : AECRCharacter :=
    match self.AbilitySystemComponent with
    | none => self
    | some ECRASC =>
      let ASC1 := ECRASC.SetLooseGameplayTagCount G.Status_Crouching 1
      { self with AbilitySystemComponent := some ASC1 }
  (self1, [CharacterCall.Super_OnStartCrouch HalfHeightAdjust ScaledHalfHeightAdjust])

/-- `AECRCharacter::OnEndCrouch`. -/
def OnEndCrouch (G : FECRGameplayTags) (self : AECRCharacter)
    (HalfHeightAdjust ScaledHalfHeightAdjust : F) : AECRCharacter × List (CharacterCall F) :=
  let self1 : AECRCharacter :=
    match self.AbilitySystemComponent with
    | none => self
    | some ECRASC =>
      let ASC1 := ECRASC.SetLooseGameplayTagCount G.Status_Crouching 0
      { self with AbilitySystemComponent := some ASC1 }
  (self1, [CharacterCall.Super_OnEndCrouch HalfHeightAdjust ScaledHalfHeightAdjust])

/-- `AECRCharacter::GrantAbilitySets`. -/
def GrantAbilitySets (AbilitySets : List (Option ObjectId)) : List (CharacterCall F) :=
  match AbilitySets with
  | [] => []
  | none :: rest => GrantAbilitySets rest
  | some AbilitySet :: rest => CharacterCall.GiveToAbilitySystem AbilitySet :: GrantAbilitySets rest

/-- `AECRCharacter::InitPawnDataAndAbilities`: the calls made. `PawnData` is
dereferenced after a non-fatal `ensureMsgf`. -/
def InitPawnDataAndAbilities (World : UWorld F) (self : AECRCharacterActor F) :
    Except Fault (List (CharacterCall F)) :=
  let t0 : List (CharacterCall F) :=
    if self.PawnData.isSome then [] else [CharacterCall.EnsureFailed "PawnData"]
  if self.LocalRole ≠ ENetRole.ROLE_Authority then Except.ok t0
  else
    let t1 : List (CharacterCall F) := [CharacterCall.MarkPropertyDirty "PawnData"]
    -- Granting common ability sets from game state
    let t2 : List (CharacterCall F) :=
      match World.ECRGameState with
      | none => []
      | some CommonCharacterAbilitySets => GrantAbilitySets CommonCharacterAbilitySets
    -- Granting this character ability sets
    match self.PawnData with
    | none => Except.error (Fault.NullDereference "PawnData")
    | some AbilitySets =>
      Except.ok (t0 ++ t1 ++ t2 ++ GrantAbilitySets AbilitySets ++
        [CharacterCall.SendGameFrameworkComponentExtensionEvent self.Id "ECRAbilitiesReady",
         CharacterCall.ForceNetUpdate])

/-- A change of movement mode as the movement component performs it: the new mode
is stored, then the character is notified with the mode that was current before. -/
def ChangeMovementMode (ops : FloatArith F) (G : FECRGameplayTags) (World : UWorld F)
    (self : AECRCharacterActor F) (NewMovementMode : EMovementMode) (NewCustomMode : Nat) :
    AECRCharacterActor F :=
  let moved : AECRCharacterActor F :=
    { self with CharacterMovement := ⟨NewMovementMode, NewCustomMode⟩ }
  (OnMovementModeChanged ops G World moved self.CharacterMovement.MovementMode
    self.CharacterMovement.CustomMovementMode).1

end AECRCharacter

/-! ## Runs of movement mode changes -/

/-- The values of the two movement-mode tag maps. -/
def FECRGameplayTags.MovementModeTags (G : FECRGameplayTags) : List FGameplayTag :=
  (G.MovementModeTagMap ++ G.CustomMovementModeTagMap).map Prod.snd

/-- The tags written by the movement-mode bookkeeping: the values of the two maps
and the two falling sub-tags. -/
def FECRGameplayTags.IsMovementTag (G : FECRGameplayTags) (t : FGameplayTag) : Bool :=
  decide (t ∈ G.MovementModeTags) || decide (t = G.Movement_Mode_Falling_Standard) ||
    decide (t = G.Movement_Mode_Falling_JumpPack)

/-- What happens to the character between two observations of its tags: the
movement component changes mode, in some world and at some height, or another
writer sets the loose count of a tag. -/
inductive FCharacterEvent (F : Type) where
  | MovementModeChange (World : UWorld F) (ActorLocationZ : F)
      (NewMovementMode : EMovementMode) (NewCustomMode : Nat)
  | TagWrite (Tag : FGameplayTag) (NewCount : Nat)

/-- Whether the event leaves the movement tags to `OnMovementModeChanged`. -/
def FCharacterEvent.LeavesMovementTags {F : Type} (G : FECRGameplayTags) :
    FCharacterEvent F → Bool
  | .MovementModeChange _ _ _ _ => true
  | .TagWrite Tag _ => !G.IsMovementTag Tag

namespace AECRCharacter

variable {F : Type}

/-- The effect of one event on the character. -/
def ApplyEvent (ops : FloatArith F) (G : FECRGameplayTags) (self : AECRCharacterActor F) :
    FCharacterEvent F → AECRCharacterActor F
  | .MovementModeChange World ActorLocationZ NewMovementMode NewCustomMode =>
    ChangeMovementMode ops G World { self with ActorLocationZ := ActorLocationZ }
      NewMovementMode NewCustomMode
  | .TagWrite Tag NewCount =>
    match self.AbilitySystemComponent with
    | none => self
    | some ASC =>
      let ASC1 := ASC.SetLooseGameplayTagCount Tag NewCount
      { self with AbilitySystemComponent := some ASC1 }

/-- The state reached from `self` by a sequence of events. -/
def RunEvents (ops : FloatArith F) (G : FECRGameplayTags) (self : AECRCharacterActor F)
    (events : List (FCharacterEvent F)) : AECRCharacterActor F :=
  events.foldl (ApplyEvent ops G) self

/-- `InitializeGameplayTags` on the character as an actor. -/
def InitializeGameplayTagsOf (G : FECRGameplayTags) (self : AECRCharacterActor F) :
    AECRCharacterActor F :=
  { self with toAECRCharacter := InitializeGameplayTags G self.toAECRCharacter }

end AECRCharacter

/-- Every valid movement-mode tag and both falling sub-tags have loose count 0. -/
def TagsCleared (G : FECRGameplayTags) (ASC : UECRAbilitySystemComponent) : Prop :=
  (∀ t : FGameplayTag, t.IsValid = true → t ∈ G.MovementModeTags →
    ASC.LooseGameplayTagCount t = 0) ∧
  ASC.LooseGameplayTagCount G.Movement_Mode_Falling_Standard = 0 ∧
  ASC.LooseGameplayTagCount G.Movement_Mode_Falling_JumpPack = 0

/-- The loose counts mirror the movement mode `(m, k)`: a valid movement-mode tag
has count 1 if it is the tag of `(m, k)` and 0 otherwise; the falling sub-tags are
both 0 unless the tag of `(m, k)` is the valid falling tag, and never both set. -/
def TagsMirror (G : FECRGameplayTags) (ASC : UECRAbilitySystemComponent) (m : EMovementMode)
    (k : Nat) : Prop :=
  (∀ t : FGameplayTag, t.IsValid = true → t ∈ G.MovementModeTags →
    ASC.LooseGameplayTagCount t
      = if AECRCharacter.FindMovementModeTag G m k = some t then 1 else 0) ∧
  (¬ (AECRCharacter.FindMovementModeTag G m k = some G.Movement_Mode_Falling ∧
      G.Movement_Mode_Falling.IsValid = true) →
    ASC.LooseGameplayTagCount G.Movement_Mode_Falling_Standard = 0 ∧
    ASC.LooseGameplayTagCount G.Movement_Mode_Falling_JumpPack = 0) ∧
  (ASC.LooseGameplayTagCount G.Movement_Mode_Falling_Standard = 0 ∨
    ASC.LooseGameplayTagCount G.Movement_Mode_Falling_JumpPack = 0)

/-! ## Concrete states used to evaluate the definitions -/

namespace Examples

/-- A default-constructed component over integer arithmetic. -/
def component : UECRPawnControlComponent Int := UECRPawnControlComponent.Constructed intOps

/-- A bot pawn on the server: locally controlled by an AI controller, without
input component. -/
def botPawn : APawn Int where
  Id := 1
  LocalRole := ENetRole.ROLE_Authority
  bIsLocallyControlled := true
  bIsBotControlled := true
  InputComponent := none
  PawnExtComp := some ⟨2, none⟩
  AbilitySystemInterface := some (some 3)
  CameraComponent := none
  CurrentPitchDiff := 0
  CurrentYawDiff := 0

/-- The AI controller of `botPawn`, paired with its player state. -/
def botController : AController where
  Id := 10
  Class := EControllerClass.AIController
  PlayerState := some ⟨11, some 10⟩
  LocalPlayer := none

/-- The context of a component placed on `botPawn`. -/
def botContext : PawnContext Int where
  Pawn := some botPawn
  ECRPlayerState := some ⟨11, some 10⟩
  Controller := some botController

/-- A player pawn, locally controlled by a human, whose input component has not
been created yet. -/
def playerPawnNoInput : APawn Int :=
  { botPawn with bIsBotControlled := false }

/-- The context of a component placed on `playerPawnNoInput`. -/
def playerNoInputContext : PawnContext Int :=
  { botContext with Pawn := some playerPawnNoInput }

/-- A tag table in the shape of the native one. -/
def tags : FECRGameplayTags where
  MovementModeTagMap :=
    [(1, ⟨["Movement", "Mode", "Walking"]⟩), (2, ⟨["Movement", "Mode", "NavWalking"]⟩),
     (3, ⟨["Movement", "Mode", "Falling"]⟩), (4, ⟨["Movement", "Mode", "Swimming"]⟩),
     (5, ⟨["Movement", "Mode", "Flying"]⟩), (6, ⟨["Movement", "Mode", "Custom"]⟩)]
  CustomMovementModeTagMap := []
  Movement_Mode_Falling := ⟨["Movement", "Mode", "Falling"]⟩
  Movement_Mode_Falling_Standard := ⟨["Movement", "Mode", "FallingStandard"]⟩
  Movement_Mode_Falling_JumpPack := ⟨["Movement", "Mode", "FallingJumpPack"]⟩
  Status_JumpFlying := ⟨["Status", "JumpFlying"]⟩
  Status_Crouching := ⟨["Status", "Crouching"]⟩
  GameplayEvent_Landed := ⟨["GameplayEvent", "Landed"]⟩
  GameplayEvent_MovementModeChanged := ⟨["GameplayEvent", "MovementModeChanged"]⟩
  InputTag_Look_Mouse := ⟨["InputTag", "Look", "Mouse"]⟩
  InputTag_Look_Stick := ⟨["InputTag", "Look", "Stick"]⟩

/-- A component that has already been initialized. -/
def initializedComponent : UECRPawnControlComponent Int :=
  { component with bPawnHasInitialized := true, bReadyToBindInputs := true }

/-- A player pawn with an input component and pawn data carrying an input config. -/
def playerPawn : APawn Int where
  Id := 1
  LocalRole := ENetRole.ROLE_AutonomousProxy
  bIsLocallyControlled := true
  bIsBotControlled := false
  InputComponent := some ⟨4, true⟩
  PawnExtComp := some ⟨2, some ⟨5, some 6, some 7⟩⟩
  AbilitySystemInterface := some (some 3)
  CameraComponent := some 8
  CurrentPitchDiff := 10
  CurrentYawDiff := 20

/-- A player controller with a local player. -/
def playerController : AController where
  Id := 10
  Class := EControllerClass.ECRPlayerController
  PlayerState := some ⟨11, some 10⟩
  LocalPlayer := some ⟨12, some 13⟩

/-- The context of a component placed on `playerPawn`. -/
def playerContext : PawnContext Int where
  Pawn := some playerPawn
  ECRPlayerState := some ⟨11, some 10⟩
  Controller := some playerController

/-- As `playerContext`, but the controller has no local player. -/
def noLocalPlayerContext : PawnContext Int :=
  { playerContext with Controller := some { playerController with LocalPlayer := none } }

/-- A component whose camera mode has been overridden by an ability. -/
def abilityCameraComponent : UECRPawnControlComponent Int :=
  { component with AbilityCameraMode := some 42, AbilityCameraModeOwningSpecHandle := ⟨7⟩ }

/-- A context without a pawn. -/
def noPawnContext : PawnContext Int where
  Pawn := none
  ECRPlayerState := none
  Controller := none

/-- A component whose yaw is locked to 90 degrees; the pitch is free. -/
def yawLockedComponent : UECRPawnControlComponent Int :=
  { component with LookYawLimit := 90 }

/-- An ability system component with counts lingering from a previous pawn. -/
def lingeringASC : UECRAbilitySystemComponent where
  ExplicitTagCountMap :=
    [(⟨["Movement", "Mode", "Walking"]⟩, 1), (⟨["Movement", "Mode", "Swimming"]⟩, 2),
     (⟨["Movement", "Mode", "FallingJumpPack"]⟩, 1)]

/-- A falling character carrying `lingeringASC`. -/
def fallingCharacter : AECRCharacter where
  AbilitySystemComponent := some lingeringASC
  CharacterMovement := ⟨EMovementMode.MOVE_Falling, 0⟩

/-- An ability system component on which the jump pack status is active. -/
def jumpFlyingASC : UECRAbilitySystemComponent where
  ExplicitTagCountMap :=
    [(⟨["Status", "JumpFlying"]⟩, 1), (⟨["Movement", "Mode", "FallingStandard"]⟩, 3)]

/-- A character using the jump pack. -/
def jumpFlyingCharacter : AECRCharacter where
  AbilitySystemComponent := some jumpFlyingASC
  CharacterMovement := ⟨EMovementMode.MOVE_Falling, 0⟩

/-- An indicator manager with two registered indicators. -/
def indicatorManager : UECRIndicatorManagerComponent where
  Id := 100
  Indicators := [1, 2]

/-- A descriptor with default handling, not yet registered. -/
def plainDescriptor : UIndicatorDescriptor where
  Id := 3
  ManagerPtr := none
  bWantsNonDefaultHandling := false

/-- A descriptor that wants non-default handling. -/
def customDescriptor : UIndicatorDescriptor where
  Id := 4
  ManagerPtr := none
  bWantsNonDefaultHandling := true

/-- A world at time 50 whose game state carries common ability sets. -/
def world : UWorld Int where
  TimeSeconds := 50
  ECRGameState := some [some 31, none, some 32]

/-- A component listening for queued ability inputs. -/
def queueComponent : UECRPawnControlComponent Int :=
  { component with
    bListenForAbilityQueue := true
    AbilityQueueDeltaTime := 2
    AbilityQueueInputTags := [⟨["InputTag", "Ability", "Fire"]⟩] }

/-- An ability system component with a previously queued input. -/
def queuedASC : UECRAbilitySystemComponentQueue Int where
  ExplicitTagCountMap := []
  AbilityQueueSystemLastInputTag := ⟨["InputTag", "Ability", "Reload"]⟩
  AbilityQueueSystemLastInputTagTime := 40
  AbilityQueueSystemDeltaTime := 1

/-- A character on the server that is still the avatar of its ability system. -/
def serverCharacter : AECRCharacterActor Int where
  toAECRCharacter := fallingCharacter
  Id := 1
  LocalRole := ENetRole.ROLE_Authority
  StartedFallingTime := 40
  StartedFallingZ := 900
  ActorLocationZ := 100
  AbilitySystemAvatarActor := some 1
  PawnData := some [some 21, none, some 22]

/-- The same character as seen on a client, after another pawn became the avatar. -/
def clientCharacter : AECRCharacterActor Int :=
  { serverCharacter with
    LocalRole := ENetRole.ROLE_SimulatedProxy
    AbilitySystemAvatarActor := some 2 }

/-- `serverCharacter` after its movement component switched to walking. -/
def landingCharacter : AECRCharacterActor Int :=
  { serverCharacter with CharacterMovement := ⟨EMovementMode.MOVE_Walking, 0⟩ }

/-- Landing, a jump pack activation by another writer, and falling again. -/
def movementEvents : List (FCharacterEvent Int) :=
  [FCharacterEvent.MovementModeChange world 0 EMovementMode.MOVE_Walking 0,
   FCharacterEvent.TagWrite ⟨["Status", "JumpFlying"]⟩ 1,
   FCharacterEvent.MovementModeChange world 500 EMovementMode.MOVE_Falling 0]

end Examples

/-! ## Theorems -/

section PawnControlReady

variable {F : Type}

theorem getController_base (ctx : PawnContext F) :
    ctx.GetController EControllerClass.Controller = ctx.Controller := by
  unfold PawnContext.GetController
  cases ctx.Controller <;> simp [EControllerClass.IsA]

/-- C1: `IsPawnComponentReadyToInitialize` returns true exactly when there is an
`AECRPlayerState`, there is a pawn, the pawn is a simulated proxy or else there is
a controller whose player state is non-null and owned by that controller, and the
pawn is not locally controlled, or is bot controlled, or has an input component.
In every other state it returns false. -/
theorem C1_ready_iff (ctx : PawnContext F) (self : UECRPawnControlComponent F) :
    UECRPawnControlComponent.IsPawnComponentReadyToInitialize ctx self = true ↔
      ctx.ECRPlayerState.isSome = true ∧
      ∃ Pawn, ctx.Pawn = some Pawn ∧
        (Pawn.LocalRole = ENetRole.ROLE_SimulatedProxy ∨
          ∃ Controller PS, ctx.Controller = some Controller ∧
            Controller.PlayerState = some PS ∧ PS.Owner = some Controller.Id) ∧
        (Pawn.bIsLocallyControlled = false ∨ Pawn.bIsBotControlled = true ∨
          Pawn.InputComponent.isSome = true) := by
  unfold UECRPawnControlComponent.IsPawnComponentReadyToInitialize
  rw [getController_base]
  cases hps : ctx.ECRPlayerState with
  | none => simp
  | some ps =>
    cases hp : ctx.Pawn with
    | none => simp
    | some Pawn =>
      cases hc : ctx.Controller with
      | none =>
        cases hl : Pawn.bIsLocallyControlled <;> cases hb : Pawn.bIsBotControlled <;>
          cases hi : Pawn.InputComponent <;>
          by_cases hr : Pawn.LocalRole = ENetRole.ROLE_SimulatedProxy <;> simp [hr, hl, hb, hi]
      | some Controller =>
        cases hcp : Controller.PlayerState with
        | none =>
          cases hl : Pawn.bIsLocallyControlled <;> cases hb : Pawn.bIsBotControlled <;>
            cases hi : Pawn.InputComponent <;>
            by_cases hr : Pawn.LocalRole = ENetRole.ROLE_SimulatedProxy <;> simp [hr, hcp, hl, hb, hi]
        | some PS =>
          cases hl : Pawn.bIsLocallyControlled <;> cases hb : Pawn.bIsBotControlled <;>
            cases hi : Pawn.InputComponent <;>
            by_cases hr : Pawn.LocalRole = ENetRole.ROLE_SimulatedProxy <;>
            by_cases ho : PS.Owner = some Controller.Id <;> simp [hr, hcp, ho, hl, hb, hi]

/-- C2, as stated, fails: a bot pawn is locally controlled and has no input
component, and the component on it is ready to initialize. -/
theorem C2_counterexample :
    Examples.botPawn.bIsLocallyControlled = true ∧
    Examples.botPawn.InputComponent = none ∧
    Examples.botContext.Pawn = some Examples.botPawn ∧
    UECRPawnControlComponent.IsPawnComponentReadyToInitialize
      Examples.botContext Examples.component = true :=
  ⟨rfl, rfl, rfl, by decide⟩

/-- C2, amended: for every pawn that is locally controlled, not bot controlled and
whose input component is null, `IsPawnComponentReadyToInitialize` returns false. -/
theorem C2_input_required_unless_bot (ctx : PawnContext F) (self : UECRPawnControlComponent F)
    (Pawn : APawn F) (hPawn : ctx.Pawn = some Pawn)
    (hLocal : Pawn.bIsLocallyControlled = true) (hBot : Pawn.bIsBotControlled = false)
    (hInput : Pawn.InputComponent = none) :
    UECRPawnControlComponent.IsPawnComponentReadyToInitialize ctx self = false := by
  unfold UECRPawnControlComponent.IsPawnComponentReadyToInitialize
  cases hps : ctx.ECRPlayerState with
  | none => rfl
  | some ps =>
    simp only [hPawn, hLocal, hBot, hInput]
    split <;> simp

theorem C2_input_required_unless_bot_witness :
    UECRPawnControlComponent.IsPawnComponentReadyToInitialize
      Examples.playerNoInputContext Examples.component = false :=
  C2_input_required_unless_bot Examples.playerNoInputContext Examples.component
    Examples.playerPawnNoInput rfl rfl rfl rfl

end PawnControlReady

section PawnControlInit

variable {F : Type}

/-- C3, as stated, fails: with `bPawnHasInitialized` false, a pawn and a player
state present, the call stops at `check(LP)` in `InitializePlayerInput` when the
player controller has no local player, and the flag is never set. -/
theorem C3_counterexample :
    Examples.component.bPawnHasInitialized = false ∧
    Examples.noLocalPlayerContext.Pawn.isSome = true ∧
    Examples.noLocalPlayerContext.ECRPlayerState.isSome = true ∧
    UECRPawnControlComponent.OnPawnReadyToInitialize Examples.tags
      Examples.noLocalPlayerContext Examples.component = Except.error (Fault.CheckFailed "LP") :=
  ⟨rfl, rfl, rfl, rfl⟩

theorem initializePlayerInput_ok (G : FECRGameplayTags) (ctx : PawnContext F)
    (self : UECRPawnControlComponent F) (Pawn : APawn F) (PC : AController) (IC : UInputComponent)
    (hPawn : ctx.Pawn = some Pawn) (hPC : ctx.Controller = some PC)
    (hClass : PC.Class = EControllerClass.ECRPlayerController)
    (hIC : Pawn.InputComponent = some IC) (hA : InputAssertionsHold ctx Pawn = true) :
    ∃ self1 t, UECRPawnControlComponent.InitializePlayerInput G ctx self (some IC)
      = Except.ok (self1, t) := by
  unfold InputAssertionsHold at hA
  simp only [hPC, hIC, hClass, if_true, Bool.and_eq_true] at hA
  obtain ⟨hLP, hCfg⟩ := hA
  unfold UECRPawnControlComponent.InitializePlayerInput
  simp only [hPawn, PawnContext.GetController, hPC, hClass, EControllerClass.IsA, if_true]
  cases hlp : PC.LocalPlayer with
  | none => simp [hlp] at hLP
  | some LP =>
    simp only [hlp] at hLP
    cases hs : LP.EnhancedInputSubsystem with
    | none => simp [hs] at hLP
    | some Subsystem =>
      simp only [hs]
      cases hx : Pawn.PawnExtComp with
      | none => exact ⟨_, _, rfl⟩
      | some PawnExtComp =>
        simp only []
        cases hd : PawnExtComp.PawnData with
        | none => exact ⟨_, _, rfl⟩
        | some PawnData =>
          simp only []
          cases hc : PawnData.InputConfig with
          | none => exact ⟨_, _, rfl⟩
          | some InputConfig =>
            simp only [hx, hd, hc, Option.isNone_some, Bool.false_or] at hCfg
            simp only [hCfg, if_true]
            exact ⟨_, _, rfl⟩

theorem initInputAndCamera_ok (G : FECRGameplayTags) (ctx : PawnContext F)
    (self : UECRPawnControlComponent F) (Pawn : APawn F)
    (hPawn : ctx.Pawn = some Pawn) (hA : InputAssertionsHold ctx Pawn = true) :
    ∃ self1 t, UECRPawnControlComponent.InitInputAndCamera G ctx self = Except.ok (self1, t) := by
  unfold UECRPawnControlComponent.InitInputAndCamera
  simp only [hPawn]
  cases hC : ctx.Controller with
  | none => simp [PawnContext.GetController, hC]
  | some PC =>
    by_cases hClass : PC.Class = EControllerClass.ECRPlayerController
    · cases hIC : Pawn.InputComponent with
      | none => simp [PawnContext.GetController, hC, hClass, EControllerClass.IsA]
      | some IC =>
        obtain ⟨self1, t, h⟩ := initializePlayerInput_ok G ctx self Pawn PC IC hPawn hC hClass hIC hA
        simp [PawnContext.GetController, hC, hClass, EControllerClass.IsA, h]
    · have hIsA : PC.Class.IsA EControllerClass.ECRPlayerController = false := by
        cases hk : PC.Class <;> simp_all [EControllerClass.IsA]
      simp [PawnContext.GetController, hC, hIsA]

theorem initializePlayerInput_error (G : FECRGameplayTags) (ctx : PawnContext F)
    (self : UECRPawnControlComponent F) (Pawn : APawn F) (PC : AController) (IC : UInputComponent)
    (hPawn : ctx.Pawn = some Pawn) (hPC : ctx.Controller = some PC)
    (hClass : PC.Class = EControllerClass.ECRPlayerController)
    (hIC : Pawn.InputComponent = some IC) (hA : InputAssertionsHold ctx Pawn = false) :
    ∃ e, UECRPawnControlComponent.InitializePlayerInput G ctx self (some IC)
      = Except.error e := by
  unfold InputAssertionsHold at hA
  simp only [hPC, hIC, hClass, if_true, Bool.and_eq_false_iff] at hA
  unfold UECRPawnControlComponent.InitializePlayerInput
  simp only [hPawn, PawnContext.GetController, hPC, hClass, EControllerClass.IsA, if_true]
  cases hlp : PC.LocalPlayer with
  | none => exact ⟨_, rfl⟩
  | some LP =>
    simp only []
    cases hs : LP.EnhancedInputSubsystem with
    | none => exact ⟨_, rfl⟩
    | some Subsystem =>
      simp only [hlp, hs, Option.isSome_some, Bool.true_eq_false, false_or] at hA
      cases hx : Pawn.PawnExtComp with
      | none => simp [hx] at hA
      | some PawnExtComp =>
        simp only []
        cases hd : PawnExtComp.PawnData with
        | none => simp [hx, hd] at hA
        | some PawnData =>
          simp only []
          cases hc : PawnData.InputConfig with
          | none => simp [hx, hd, hc] at hA
          | some InputConfig =>
            simp only [hx, hd, hc, Option.isNone_some, Bool.false_or] at hA
            simp only [hA, Bool.false_eq_true, if_false]
            exact ⟨_, rfl⟩

theorem initInputAndCamera_error (G : FECRGameplayTags) (ctx : PawnContext F)
    (self : UECRPawnControlComponent F) (Pawn : APawn F)
    (hPawn : ctx.Pawn = some Pawn) (hA : InputAssertionsHold ctx Pawn = false) :
    ∃ e, UECRPawnControlComponent.InitInputAndCamera G ctx self = Except.error e := by
  cases hC : ctx.Controller with
  | none => simp [InputAssertionsHold, hC] at hA
  | some PC =>
    cases hIC : Pawn.InputComponent with
    | none => simp [InputAssertionsHold, hC, hIC] at hA
    | some IC =>
      by_cases hClass : PC.Class = EControllerClass.ECRPlayerController
      · obtain ⟨e, h⟩ :=
          initializePlayerInput_error G ctx self Pawn PC IC hPawn hC hClass hIC hA
        unfold UECRPawnControlComponent.InitInputAndCamera
        simp [hPawn, PawnContext.GetController, hC, hClass, EControllerClass.IsA, hIC, h]
      · simp [InputAssertionsHold, hC, hIC, hClass] at hA

/-- C3, amended: with `bPawnHasInitialized` already true, `OnPawnReadyToInitialize`
leaves the component unchanged and calls neither `InitializeAbilitySystem` nor
`InitInputAndCamera`; with `bPawnHasInitialized` false, a pawn and a player state
present, and the assertions inside `InitInputAndCamera` holding, the call returns
normally with `bPawnHasInitialized` true; when one of these assertions fails the
call aborts instead. -/
theorem C3_initializes_once (G : FECRGameplayTags) (ctx : PawnContext F)
    (self : UECRPawnControlComponent F) :
    (self.bPawnHasInitialized = true →
      ∃ t, UECRPawnControlComponent.OnPawnReadyToInitialize G ctx self = Except.ok (self, t) ∧
        Call.InitInputAndCamera ∉ t ∧
        ∀ pawnExt asc owner, Call.InitializeAbilitySystem pawnExt asc owner ∉ t) ∧
    (self.bPawnHasInitialized = false →
      ∀ Pawn, ctx.Pawn = some Pawn → ctx.ECRPlayerState.isSome = true →
        InputAssertionsHold ctx Pawn = true →
        ∃ self1 t, UECRPawnControlComponent.OnPawnReadyToInitialize G ctx self
            = Except.ok (self1, t) ∧ self1.bPawnHasInitialized = true) ∧
    (self.bPawnHasInitialized = false →
      ∀ Pawn, ctx.Pawn = some Pawn → ctx.ECRPlayerState.isSome = true →
        InputAssertionsHold ctx Pawn = false →
        ∃ e, UECRPawnControlComponent.OnPawnReadyToInitialize G ctx self = Except.error e) := by
  refine ⟨?_, ?_, ?_⟩
  · intro h
    refine ⟨[Call.EnsureFailed "!bPawnHasInitialized"], ?_, ?_, ?_⟩
    · simp [UECRPawnControlComponent.OnPawnReadyToInitialize, h]
    · simp
    · intro a b c
      simp
  · intro h Pawn hPawn hPS hA
    obtain ⟨self1, t, hInit⟩ := initInputAndCamera_ok G ctx self Pawn hPawn hA
    cases hps : ctx.ECRPlayerState with
    | none => simp [hps] at hPS
    | some ps =>
      unfold UECRPawnControlComponent.OnPawnReadyToInitialize
      simp only [h, hPawn, hps, hInit]
      exact ⟨_, _, rfl, rfl⟩
  · intro h Pawn hPawn hPS hA
    obtain ⟨e, hInit⟩ := initInputAndCamera_error G ctx self Pawn hPawn hA
    cases hps : ctx.ECRPlayerState with
    | none => simp [hps] at hPS
    | some ps =>
      unfold UECRPawnControlComponent.OnPawnReadyToInitialize
      simp only [h, hPawn, hps, hInit]
      exact ⟨_, rfl⟩

theorem C3_initializes_once_witness :
    (∃ t, UECRPawnControlComponent.OnPawnReadyToInitialize Examples.tags Examples.playerContext
        Examples.initializedComponent = Except.ok (Examples.initializedComponent, t) ∧
      Call.InitInputAndCamera ∉ t ∧
      ∀ pawnExt asc owner, Call.InitializeAbilitySystem pawnExt asc owner ∉ t) ∧
    (∃ self1 t, UECRPawnControlComponent.OnPawnReadyToInitialize Examples.tags
        Examples.playerContext Examples.component = Except.ok (self1, t) ∧
      self1.bPawnHasInitialized = true) :=
  ⟨(C3_initializes_once Examples.tags Examples.playerContext Examples.initializedComponent).1 rfl,
   (C3_initializes_once Examples.tags Examples.playerContext Examples.component).2.1 rfl
     Examples.playerPawn rfl rfl (by decide)⟩

end PawnControlInit

section PawnControlCamera

variable {F : Type}

/-- C8: `DetermineCameraMode` returns `AbilityCameraMode` whenever that is non-null,
even with no pawn; otherwise the `DefaultCameraMode` of the pawn data held by the
pawn extension component; and null when `AbilityCameraMode` is null and the pawn,
the pawn extension component or the pawn data is missing. -/
theorem C8_camera_mode_precedence (ctx : PawnContext F) (self : UECRPawnControlComponent F) :
    (∀ m, self.AbilityCameraMode = some m →
      UECRPawnControlComponent.DetermineCameraMode ctx self = some m) ∧
    (self.AbilityCameraMode = none →
      ∀ Pawn PawnExtComp PawnData, ctx.Pawn = some Pawn →
        Pawn.PawnExtComp = some PawnExtComp → PawnExtComp.PawnData = some PawnData →
        UECRPawnControlComponent.DetermineCameraMode ctx self = PawnData.DefaultCameraMode) ∧
    (self.AbilityCameraMode = none →
      (ctx.Pawn = none ∨
        ∃ Pawn, ctx.Pawn = some Pawn ∧
          (Pawn.PawnExtComp = none ∨
            ∃ PawnExtComp, Pawn.PawnExtComp = some PawnExtComp ∧ PawnExtComp.PawnData = none)) →
      UECRPawnControlComponent.DetermineCameraMode ctx self = none) := by
  refine ⟨?_, ?_, ?_⟩
  · intro m hm
    simp [UECRPawnControlComponent.DetermineCameraMode, hm]
  · intro hNone Pawn PawnExtComp PawnData hPawn hExt hData
    simp [UECRPawnControlComponent.DetermineCameraMode, hNone, hPawn, hExt, hData]
  · intro hNone hMissing
    unfold UECRPawnControlComponent.DetermineCameraMode
    rcases hMissing with hPawn | ⟨Pawn, hPawn, hExt | ⟨PawnExtComp, hExt, hData⟩⟩
    · simp [hNone, hPawn]
    · simp [hNone, hPawn, hExt]
    · simp [hNone, hPawn, hExt, hData]

theorem C8_camera_mode_precedence_witness :
    UECRPawnControlComponent.DetermineCameraMode Examples.noPawnContext
      Examples.abilityCameraComponent = some 42 ∧
    UECRPawnControlComponent.DetermineCameraMode Examples.playerContext
      Examples.component = some 6 ∧
    UECRPawnControlComponent.DetermineCameraMode Examples.botContext
      Examples.component = none :=
  ⟨(C8_camera_mode_precedence Examples.noPawnContext Examples.abilityCameraComponent).1 42 rfl,
   (C8_camera_mode_precedence Examples.playerContext Examples.component).2.1 rfl
     Examples.playerPawn ⟨2, some ⟨5, some 6, some 7⟩⟩ ⟨5, some 6, some 7⟩ rfl rfl rfl,
   (C8_camera_mode_precedence Examples.botContext Examples.component).2.2 rfl
     (Or.inr ⟨Examples.botPawn, rfl, Or.inr ⟨⟨2, none⟩, rfl, rfl⟩⟩)⟩

end PawnControlCamera

section PawnControlLook

variable {F : Type}

/-- C9: in `Input_LookMouse` on a pawn, with input `(X, Y)`: when `LookYawLimit` is
not 180, a non-zero `X` is passed to `AddControllerYawInput` iff
`|CurrentYawDiff + X| <= LookYawLimit`; with a limit of exactly 180 every non-zero
`X` is passed; a zero `X` causes no yaw call; and the same holds for `Y`,
`CurrentPitchDiff`, `LookPitchLimit` and `AddControllerPitchInput`. The only
values ever passed are `X` and `Y` themselves. -/
theorem C9_look_limits (ops : FloatOps F) (ctx : PawnContext F)
    (self : UECRPawnControlComponent F) (Pawn : APawn F) (X Y : F)
    (hPawn : ctx.Pawn = some Pawn) :
    (ops.ne X ops.zero = true → ops.ne self.LookYawLimit ops.c180 = true →
      (Call.AddControllerYawInput Pawn.Id X ∈
          UECRPawnControlComponent.Input_LookMouse ops ctx self ⟨X, Y⟩ ↔
        ops.le (ops.abs (ops.add Pawn.CurrentYawDiff X)) self.LookYawLimit = true)) ∧
    (ops.ne X ops.zero = true → ops.ne self.LookYawLimit ops.c180 = false →
      Call.AddControllerYawInput Pawn.Id X ∈
        UECRPawnControlComponent.Input_LookMouse ops ctx self ⟨X, Y⟩) ∧
    (ops.ne X ops.zero = false →
      ∀ p v, Call.AddControllerYawInput p v ∉
        UECRPawnControlComponent.Input_LookMouse ops ctx self ⟨X, Y⟩) ∧
    (ops.ne Y ops.zero = true → ops.ne self.LookPitchLimit ops.c180 = true →
      (Call.AddControllerPitchInput Pawn.Id Y ∈
          UECRPawnControlComponent.Input_LookMouse ops ctx self ⟨X, Y⟩ ↔
        ops.le (ops.abs (ops.add Pawn.CurrentPitchDiff Y)) self.LookPitchLimit = true)) ∧
    (ops.ne Y ops.zero = true → ops.ne self.LookPitchLimit ops.c180 = false →
      Call.AddControllerPitchInput Pawn.Id Y ∈
        UECRPawnControlComponent.Input_LookMouse ops ctx self ⟨X, Y⟩) ∧
    (ops.ne Y ops.zero = false →
      ∀ p v, Call.AddControllerPitchInput p v ∉
        UECRPawnControlComponent.Input_LookMouse ops ctx self ⟨X, Y⟩) ∧
    (∀ p v, Call.AddControllerYawInput p v ∈
        UECRPawnControlComponent.Input_LookMouse ops ctx self ⟨X, Y⟩ → p = Pawn.Id ∧ v = X) ∧
    (∀ p v, Call.AddControllerPitchInput p v ∈
        UECRPawnControlComponent.Input_LookMouse ops ctx self ⟨X, Y⟩ → p = Pawn.Id ∧ v = Y) := by
  unfold UECRPawnControlComponent.Input_LookMouse
  simp only [hPawn]
  refine ⟨?_, ?_, ?_, ?_, ?_, ?_, ?_, ?_⟩
  · intro hX hL
    split_ifs <;> simp_all
  · intro hX hL
    split_ifs <;> simp_all
  · intro hX p v
    split_ifs <;> simp_all
  · intro hY hL
    split_ifs <;> simp_all
  · intro hY hL
    split_ifs <;> simp_all
  · intro hY p v
    split_ifs <;> simp_all
  · intro p v
    split_ifs <;> simp
  · intro p v
    split_ifs <;> simp

theorem C9_look_limits_witness :
    Call.AddControllerYawInput 1 5 ∈
      UECRPawnControlComponent.Input_LookMouse intOps Examples.playerContext
        Examples.yawLockedComponent ⟨5, 0⟩ ∧
    (∀ p v, Call.AddControllerPitchInput p v ∉
      UECRPawnControlComponent.Input_LookMouse intOps Examples.playerContext
        Examples.yawLockedComponent ⟨5, 0⟩) ∧
    Call.AddControllerYawInput 1 80 ∉
      UECRPawnControlComponent.Input_LookMouse intOps Examples.playerContext
        Examples.yawLockedComponent ⟨80, 3⟩ ∧
    Call.AddControllerPitchInput 1 3 ∈
      UECRPawnControlComponent.Input_LookMouse intOps Examples.playerContext
        Examples.yawLockedComponent ⟨80, 3⟩ :=
  ⟨((C9_look_limits intOps Examples.playerContext Examples.yawLockedComponent
      Examples.playerPawn 5 0 rfl).1 (by decide) (by decide)).mpr (by decide),
   (C9_look_limits intOps Examples.playerContext Examples.yawLockedComponent
      Examples.playerPawn 5 0 rfl).2.2.2.2.2.1 (by decide),
   fun h => absurd (((C9_look_limits intOps Examples.playerContext Examples.yawLockedComponent
      Examples.playerPawn 80 3 rfl).1 (by decide) (by decide)).mp h) (by decide),
   (C9_look_limits intOps Examples.playerContext Examples.yawLockedComponent
      Examples.playerPawn 80 3 rfl).2.2.2.2.1 (by decide) (by decide)⟩

end PawnControlLook

section TagCounts

theorem getExplicitTagCount_setTagCount_same (m : List (FGameplayTag × Nat)) (t : FGameplayTag)
    (n : Nat) : GetExplicitTagCount (SetTagCount m t n) t = n := by
  induction m with
  | nil => simp [SetTagCount, GetExplicitTagCount]
  | cons e rest ih =>
    obtain ⟨k, c⟩ := e
    by_cases hk : k = t
    · simp [SetTagCount, GetExplicitTagCount, hk]
    · simp [SetTagCount, GetExplicitTagCount, hk, ih]

theorem getExplicitTagCount_setTagCount_other (m : List (FGameplayTag × Nat))
    (t u : FGameplayTag) (n : Nat) (h : u ≠ t) :
    GetExplicitTagCount (SetTagCount m t n) u = GetExplicitTagCount m u := by
  induction m with
  | nil => simp [SetTagCount, GetExplicitTagCount, Ne.symm h]
  | cons e rest ih =>
    obtain ⟨k, c⟩ := e
    by_cases hk : k = t
    · subst hk
      simp [SetTagCount, GetExplicitTagCount, Ne.symm h]
    · by_cases hu : k = u
      · subst hu
        simp [SetTagCount, GetExplicitTagCount, hk]
      · simp [SetTagCount, GetExplicitTagCount, hk, hu, ih]

theorem looseCount_set_same (ASC : UECRAbilitySystemComponent) (t : FGameplayTag) (n : Nat) :
    (ASC.SetLooseGameplayTagCount t n).LooseGameplayTagCount t = n :=
  getExplicitTagCount_setTagCount_same ASC.ExplicitTagCountMap t n

theorem looseCount_set_other (ASC : UECRAbilitySystemComponent) (t u : FGameplayTag) (n : Nat)
    (h : u ≠ t) : (ASC.SetLooseGameplayTagCount t n).LooseGameplayTagCount u = ASC.LooseGameplayTagCount u :=
  getExplicitTagCount_setTagCount_other ASC.ExplicitTagCountMap t u n h

theorem looseCount_set_same_value (ASC : UECRAbilitySystemComponent) (t u : FGameplayTag)
    (v : Nat) (h : ASC.LooseGameplayTagCount t = v) :
    (ASC.SetLooseGameplayTagCount u v).LooseGameplayTagCount t = v := by
  by_cases hu : t = u
  · subst hu
    exact looseCount_set_same ASC t v
  · rw [looseCount_set_other ASC u t v hu]
    exact h

theorem any_setTagCount_of_not_matching (m : List (FGameplayTag × Nat)) (t q : FGameplayTag)
    (n : Nat) (h : t.MatchesTag q = false) :
    (SetTagCount m t n).any (fun e => decide (0 < e.2) && e.1.MatchesTag q)
      = m.any (fun e => decide (0 < e.2) && e.1.MatchesTag q) := by
  induction m with
  | nil => simp [SetTagCount, h]
  | cons e rest ih =>
    obtain ⟨k, c⟩ := e
    by_cases hk : k = t
    · subst hk
      simp [SetTagCount, h]
    · simp [SetTagCount, hk, ih]

theorem hasMatching_set_of_not_matching (ASC : UECRAbilitySystemComponent) (t q : FGameplayTag)
    (n : Nat) (h : t.MatchesTag q = false) :
    (ASC.SetLooseGameplayTagCount t n).HasMatchingGameplayTag q = ASC.HasMatchingGameplayTag q :=
  any_setTagCount_of_not_matching ASC.ExplicitTagCountMap t q n h

end TagCounts

section MovementModeTag

/-- C4: on a character with an ability system component, `SetMovementModeTag`
looks the tag up in `CustomMovementModeTagMap[c]` when `m` is `MOVE_Custom` and in
`MovementModeTagMap[m]` otherwise; a tag that is found and valid gets loose count
1 when `b` is true and 0 when `b` is false; when no tag is found or it is invalid
the character, and so every tag count, is unchanged. -/
theorem C4_movement_mode_tag (G : FECRGameplayTags) (self : AECRCharacter)
    (ASC : UECRAbilitySystemComponent) (m : EMovementMode) (c : Nat) (b : Bool)
    (hASC : self.AbilitySystemComponent = some ASC) :
    (m = EMovementMode.MOVE_Custom →
      ∀ t, TMapFind G.CustomMovementModeTagMap c = some t → t.IsValid = true →
        (AECRCharacter.SetMovementModeTag G self m c b).LooseTagCount t
          = some (if b then 1 else 0)) ∧
    (m ≠ EMovementMode.MOVE_Custom →
      ∀ t, TMapFind G.MovementModeTagMap m.toUInt8 = some t → t.IsValid = true →
        (AECRCharacter.SetMovementModeTag G self m c b).LooseTagCount t
          = some (if b then 1 else 0)) ∧
    (m = EMovementMode.MOVE_Custom →
      (TMapFind G.CustomMovementModeTagMap c = none ∨
        ∃ t, TMapFind G.CustomMovementModeTagMap c = some t ∧ t.IsValid = false) →
      AECRCharacter.SetMovementModeTag G self m c b = self) ∧
    (m ≠ EMovementMode.MOVE_Custom →
      (TMapFind G.MovementModeTagMap m.toUInt8 = none ∨
        ∃ t, TMapFind G.MovementModeTagMap m.toUInt8 = some t ∧ t.IsValid = false) →
      AECRCharacter.SetMovementModeTag G self m c b = self) := by
  have hSet : ∀ t, AECRCharacter.FindMovementModeTag G m c = some t → t.IsValid = true →
      (AECRCharacter.SetMovementModeTag G self m c b).LooseTagCount t
        = some (if b then 1 else 0) := by
    intro t hFind hValid
    simp only [AECRCharacter.SetMovementModeTag, hASC, AECRCharacter.LooseTagCount,
      Option.map_some', AECRCharacter.SetMovementModeTagOn, hFind, hValid, if_true]
    congr 1
    by_cases hF : t = G.Movement_Mode_Falling
    · subst hF
      simp only [if_true]
      cases b
      · simp only [Bool.not_false, if_true, Bool.false_eq_true, if_false]
        exact looseCount_set_same_value _ _ _ _
          (looseCount_set_same_value _ _ _ _ (looseCount_set_same _ _ _))
      · simp only [Bool.not_true, Bool.false_eq_true, if_false, if_true]
        split_ifs
        · exact looseCount_set_same_value _ _ _ _ (looseCount_set_same _ _ _)
        · exact looseCount_set_same_value _ _ _ _ (looseCount_set_same _ _ _)
    · simp only [hF, if_false]
      exact looseCount_set_same _ _ _
  have hKeep : (AECRCharacter.FindMovementModeTag G m c = none ∨
      ∃ t, AECRCharacter.FindMovementModeTag G m c = some t ∧ t.IsValid = false) →
      AECRCharacter.SetMovementModeTag G self m c b = self := by
    intro h
    have hOn : AECRCharacter.SetMovementModeTagOn G ASC m c b = ASC := by
      rcases h with h | ⟨t, h, hInv⟩
      · simp [AECRCharacter.SetMovementModeTagOn, h]
      · simp [AECRCharacter.SetMovementModeTagOn, h, hInv]
    simp only [AECRCharacter.SetMovementModeTag, hASC, hOn]
    cases self
    simp_all
  refine ⟨?_, ?_, ?_, ?_⟩
  · intro hm t hFind
    exact hSet t (by simp [AECRCharacter.FindMovementModeTag, hm, hFind])
  · intro hm t hFind
    exact hSet t (by simp [AECRCharacter.FindMovementModeTag, hm, hFind])
  · intro hm h
    exact hKeep (by simpa [AECRCharacter.FindMovementModeTag, hm] using h)
  · intro hm h
    exact hKeep (by simpa [AECRCharacter.FindMovementModeTag, hm] using h)

theorem C4_movement_mode_tag_witness :
    (AECRCharacter.SetMovementModeTag Examples.tags Examples.fallingCharacter
        EMovementMode.MOVE_Swimming 0 false).LooseTagCount ⟨["Movement", "Mode", "Swimming"]⟩
      = some 0 ∧
    AECRCharacter.SetMovementModeTag Examples.tags Examples.fallingCharacter
        EMovementMode.MOVE_Custom 4 true = Examples.fallingCharacter :=
  ⟨(C4_movement_mode_tag Examples.tags Examples.fallingCharacter Examples.lingeringASC
      EMovementMode.MOVE_Swimming 0 false rfl).2.1 (by decide)
      ⟨["Movement", "Mode", "Swimming"]⟩ (by decide) (by decide),
   (C4_movement_mode_tag Examples.tags Examples.fallingCharacter Examples.lingeringASC
      EMovementMode.MOVE_Custom 4 true rfl).2.2.1 rfl (Or.inl rfl)⟩

/-- C10: when `SetMovementModeTag` resolves to the valid `Movement_Mode_Falling`
tag, then with `bTagEnabled` true it sets `Movement_Mode_Falling_JumpPack` to 1 if
the ability system component has a tag matching `Status_JumpFlying`, and otherwise
`Movement_Mode_Falling_Standard` to 1, leaving the other of the two unchanged; with
`bTagEnabled` false it sets both to 0; and when it resolves to anything else,
neither of the two is changed. The three falling tags of the tag table are taken
to be distinct, and `Movement_Mode_Falling` not to be a `Status_JumpFlying` tag. -/
theorem C10_falling_sub_tag (G : FECRGameplayTags) (self : AECRCharacter)
    (ASC : UECRAbilitySystemComponent) (m : EMovementMode) (c : Nat) (b : Bool)
    (hASC : self.AbilitySystemComponent = some ASC)
    (hFS : G.Movement_Mode_Falling ≠ G.Movement_Mode_Falling_Standard)
    (hFJ : G.Movement_Mode_Falling ≠ G.Movement_Mode_Falling_JumpPack)
    (hSJ : G.Movement_Mode_Falling_Standard ≠ G.Movement_Mode_Falling_JumpPack)
    (hNM : G.Movement_Mode_Falling.MatchesTag G.Status_JumpFlying = false) :
    (AECRCharacter.FindMovementModeTag G m c = some G.Movement_Mode_Falling →
      G.Movement_Mode_Falling.IsValid = true →
      (b = true → ASC.HasMatchingGameplayTag G.Status_JumpFlying = true →
        (AECRCharacter.SetMovementModeTag G self m c b).LooseTagCount
            G.Movement_Mode_Falling_JumpPack = some 1 ∧
        (AECRCharacter.SetMovementModeTag G self m c b).LooseTagCount
            G.Movement_Mode_Falling_Standard
          = some (ASC.LooseGameplayTagCount G.Movement_Mode_Falling_Standard)) ∧
      (b = true → ASC.HasMatchingGameplayTag G.Status_JumpFlying = false →
        (AECRCharacter.SetMovementModeTag G self m c b).LooseTagCount
            G.Movement_Mode_Falling_Standard = some 1 ∧
        (AECRCharacter.SetMovementModeTag G self m c b).LooseTagCount
            G.Movement_Mode_Falling_JumpPack
          = some (ASC.LooseGameplayTagCount G.Movement_Mode_Falling_JumpPack)) ∧
      (b = false →
        (AECRCharacter.SetMovementModeTag G self m c b).LooseTagCount
            G.Movement_Mode_Falling_Standard = some 0 ∧
        (AECRCharacter.SetMovementModeTag G self m c b).LooseTagCount
            G.Movement_Mode_Falling_JumpPack = some 0)) ∧
    (AECRCharacter.FindMovementModeTag G m c ≠ some G.Movement_Mode_Falling →
      AECRCharacter.FindMovementModeTag G m c ≠ some G.Movement_Mode_Falling_Standard →
      AECRCharacter.FindMovementModeTag G m c ≠ some G.Movement_Mode_Falling_JumpPack →
      (AECRCharacter.SetMovementModeTag G self m c b).LooseTagCount
          G.Movement_Mode_Falling_Standard
        = some (ASC.LooseGameplayTagCount G.Movement_Mode_Falling_Standard) ∧
      (AECRCharacter.SetMovementModeTag G self m c b).LooseTagCount
          G.Movement_Mode_Falling_JumpPack
        = some (ASC.LooseGameplayTagCount G.Movement_Mode_Falling_JumpPack)) := by
  constructor
  · intro hFind hValid
    have hHas : (ASC.SetLooseGameplayTagCount G.Movement_Mode_Falling 1).HasMatchingGameplayTag
        G.Status_JumpFlying = ASC.HasMatchingGameplayTag G.Status_JumpFlying :=
      hasMatching_set_of_not_matching ASC _ _ 1 hNM
    refine ⟨?_, ?_, ?_⟩
    · intro hb hJump
      subst hb
      simp only [AECRCharacter.SetMovementModeTag, hASC, AECRCharacter.LooseTagCount,
        Option.map_some', AECRCharacter.SetMovementModeTagOn, hFind, hValid, if_true,
        Bool.not_true, Bool.false_eq_true, if_false, hHas, hJump]
      refine ⟨congrArg some (looseCount_set_same _ _ _), congrArg some ?_⟩
      rw [looseCount_set_other _ _ _ _ hSJ, looseCount_set_other _ _ _ _ (Ne.symm hFS)]
    · intro hb hJump
      subst hb
      simp only [AECRCharacter.SetMovementModeTag, hASC, AECRCharacter.LooseTagCount,
        Option.map_some', AECRCharacter.SetMovementModeTagOn, hFind, hValid, if_true,
        Bool.not_true, Bool.false_eq_true, if_false, hHas, hJump]
      refine ⟨congrArg some (looseCount_set_same _ _ _), congrArg some ?_⟩
      rw [looseCount_set_other _ _ _ _ (Ne.symm hSJ),
        looseCount_set_other _ _ _ _ (Ne.symm hFJ)]
    · intro hb
      subst hb
      simp only [AECRCharacter.SetMovementModeTag, hASC, AECRCharacter.LooseTagCount,
        Option.map_some', AECRCharacter.SetMovementModeTagOn, hFind, hValid, if_true,
        Bool.not_false, Bool.false_eq_true, if_false]
      refine ⟨congrArg some ?_, congrArg some (looseCount_set_same _ _ _)⟩
      rw [looseCount_set_other _ _ _ _ hSJ]
      exact looseCount_set_same _ _ _
  · intro hNotF hNotS hNotJ
    simp only [AECRCharacter.SetMovementModeTag, hASC, AECRCharacter.LooseTagCount,
      Option.map_some', AECRCharacter.SetMovementModeTagOn]
    cases hFind : AECRCharacter.FindMovementModeTag G m c with
    | none => exact ⟨rfl, rfl⟩
    | some t =>
      have h1 : t ≠ G.Movement_Mode_Falling := fun h => hNotF (by rw [hFind, h])
      have h2 : G.Movement_Mode_Falling_Standard ≠ t := fun h => hNotS (by rw [hFind, h])
      have h3 : G.Movement_Mode_Falling_JumpPack ≠ t := fun h => hNotJ (by rw [hFind, h])
      by_cases hValid : t.IsValid = true
      · simp only [hValid, if_true, h1, if_false]
        exact ⟨congrArg some (looseCount_set_other _ _ _ _ h2),
          congrArg some (looseCount_set_other _ _ _ _ h3)⟩
      · simp [hValid]

theorem C10_falling_sub_tag_witness :
    ((AECRCharacter.SetMovementModeTag Examples.tags Examples.jumpFlyingCharacter
          EMovementMode.MOVE_Falling 0 true).LooseTagCount
        Examples.tags.Movement_Mode_Falling_JumpPack = some 1 ∧
      (AECRCharacter.SetMovementModeTag Examples.tags Examples.jumpFlyingCharacter
          EMovementMode.MOVE_Falling 0 true).LooseTagCount
        Examples.tags.Movement_Mode_Falling_Standard
        = some (Examples.jumpFlyingASC.LooseGameplayTagCount
            Examples.tags.Movement_Mode_Falling_Standard)) ∧
    ((AECRCharacter.SetMovementModeTag Examples.tags Examples.fallingCharacter
          EMovementMode.MOVE_Falling 0 true).LooseTagCount
        Examples.tags.Movement_Mode_Falling_Standard = some 1 ∧
      (AECRCharacter.SetMovementModeTag Examples.tags Examples.fallingCharacter
          EMovementMode.MOVE_Falling 0 true).LooseTagCount
        Examples.tags.Movement_Mode_Falling_JumpPack
        = some (Examples.lingeringASC.LooseGameplayTagCount
            Examples.tags.Movement_Mode_Falling_JumpPack)) ∧
    ((AECRCharacter.SetMovementModeTag Examples.tags Examples.jumpFlyingCharacter
          EMovementMode.MOVE_Falling 0 false).LooseTagCount
        Examples.tags.Movement_Mode_Falling_Standard = some 0 ∧
      (AECRCharacter.SetMovementModeTag Examples.tags Examples.jumpFlyingCharacter
          EMovementMode.MOVE_Falling 0 false).LooseTagCount
        Examples.tags.Movement_Mode_Falling_JumpPack = some 0) ∧
    ((AECRCharacter.SetMovementModeTag Examples.tags Examples.jumpFlyingCharacter
          EMovementMode.MOVE_Walking 0 true).LooseTagCount
        Examples.tags.Movement_Mode_Falling_Standard
        = some (Examples.jumpFlyingASC.LooseGameplayTagCount
            Examples.tags.Movement_Mode_Falling_Standard) ∧
      (AECRCharacter.SetMovementModeTag Examples.tags Examples.jumpFlyingCharacter
          EMovementMode.MOVE_Walking 0 true).LooseTagCount
        Examples.tags.Movement_Mode_Falling_JumpPack
        = some (Examples.jumpFlyingASC.LooseGameplayTagCount
            Examples.tags.Movement_Mode_Falling_JumpPack)) :=
  ⟨((C10_falling_sub_tag Examples.tags Examples.jumpFlyingCharacter Examples.jumpFlyingASC
      EMovementMode.MOVE_Falling 0 true rfl (by decide) (by decide) (by decide)
      (by decide)).1 (by decide) (by decide)).1 rfl (by decide),
   ((C10_falling_sub_tag Examples.tags Examples.fallingCharacter Examples.lingeringASC
      EMovementMode.MOVE_Falling 0 true rfl (by decide) (by decide) (by decide)
      (by decide)).1 (by decide) (by decide)).2.1 rfl (by decide),
   ((C10_falling_sub_tag Examples.tags Examples.jumpFlyingCharacter Examples.jumpFlyingASC
      EMovementMode.MOVE_Falling 0 false rfl (by decide) (by decide) (by decide)
      (by decide)).1 (by decide) (by decide)).2.2 rfl,
   (C10_falling_sub_tag Examples.tags Examples.jumpFlyingCharacter Examples.jumpFlyingASC
      EMovementMode.MOVE_Walking 0 true rfl (by decide) (by decide) (by decide)
      (by decide)).2 (by decide) (by decide) (by decide)⟩

end MovementModeTag

section InitializeTags

theorem looseCount_clearTagMap (m : List (Nat × FGameplayTag)) (ASC : UECRAbilitySystemComponent)
    (u : FGameplayTag) :
    (AECRCharacter.ClearTagMap ASC m).LooseGameplayTagCount u
      = if u.IsValid = true ∧ u ∈ m.map Prod.snd then 0 else ASC.LooseGameplayTagCount u := by
  induction m generalizing ASC with
  | nil => simp [AECRCharacter.ClearTagMap]
  | cons e rest ih =>
    obtain ⟨k, t⟩ := e
    by_cases hv : t.IsValid = true
    · have hStep : AECRCharacter.ClearTagMap ASC ((k, t) :: rest)
          = AECRCharacter.ClearTagMap (ASC.SetLooseGameplayTagCount t 0) rest := by
        simp [AECRCharacter.ClearTagMap, hv]
      rw [hStep, ih]
      by_cases hut : u = t
      · subst hut
        simp [hv, looseCount_set_same]
      · rw [looseCount_set_other _ _ _ _ hut]
        simp only [List.map_cons, List.mem_cons, hut, false_or]
    · have hStep : AECRCharacter.ClearTagMap ASC ((k, t) :: rest)
          = AECRCharacter.ClearTagMap ASC rest := by
        simp [AECRCharacter.ClearTagMap, hv]
      rw [hStep, ih]
      by_cases hut : u = t
      · subst hut
        simp [hv]
      · simp only [List.map_cons, List.mem_cons, hut, false_or]

theorem tmapFind_mem (m : List (Nat × FGameplayTag)) (key : Nat) (t : FGameplayTag)
    (h : TMapFind m key = some t) : t ∈ m.map Prod.snd := by
  induction m with
  | nil => simp [TMapFind] at h
  | cons e rest ih =>
    obtain ⟨k, v⟩ := e
    by_cases hk : k = key
    · simp only [TMapFind, hk, if_true, Option.some.injEq] at h
      simp [h]
    · simp only [TMapFind, hk, if_false] at h
      simp [ih h]

theorem findMovementModeTag_mem (G : FECRGameplayTags) (m : EMovementMode) (c : Nat)
    (t : FGameplayTag) (h : AECRCharacter.FindMovementModeTag G m c = some t) :
    t ∈ (G.MovementModeTagMap ++ G.CustomMovementModeTagMap).map Prod.snd := by
  unfold AECRCharacter.FindMovementModeTag at h
  rw [List.map_append, List.mem_append]
  split_ifs at h
  · exact Or.inr (tmapFind_mem _ _ _ h)
  · exact Or.inl (tmapFind_mem _ _ _ h)

/-- C5: for every prior tag-count state, after `InitializeGameplayTags` every valid
tag that is a value of `MovementModeTagMap` or `CustomMovementModeTagMap` has loose
count 0, except the tag mapped from the movement component's current
`(MovementMode, CustomMovementMode)`, which has count 1. The two falling sub-tags
of the tag table are taken not to be values of the two maps. -/
theorem C5_initialize_clears_movement_tags (G : FECRGameplayTags) (self : AECRCharacter)
    (ASC : UECRAbilitySystemComponent) (hASC : self.AbilitySystemComponent = some ASC)
    (hStd : G.Movement_Mode_Falling_Standard ∉
      (G.MovementModeTagMap ++ G.CustomMovementModeTagMap).map Prod.snd)
    (hJP : G.Movement_Mode_Falling_JumpPack ∉
      (G.MovementModeTagMap ++ G.CustomMovementModeTagMap).map Prod.snd) :
    (∀ t : FGameplayTag, t.IsValid = true →
      t ∈ (G.MovementModeTagMap ++ G.CustomMovementModeTagMap).map Prod.snd →
      (AECRCharacter.InitializeGameplayTags G self).LooseTagCount t
        = some (if AECRCharacter.FindMovementModeTag G self.CharacterMovement.MovementMode
                    self.CharacterMovement.CustomMovementMode = some t then 1 else 0)) ∧
    (∀ t : FGameplayTag,
      AECRCharacter.FindMovementModeTag G self.CharacterMovement.MovementMode
        self.CharacterMovement.CustomMovementMode = some t → t.IsValid = true →
      (AECRCharacter.InitializeGameplayTags G self).LooseTagCount t = some 1) := by
  have hAll : ∀ t : FGameplayTag, t.IsValid = true →
      t ∈ (G.MovementModeTagMap ++ G.CustomMovementModeTagMap).map Prod.snd →
      (AECRCharacter.InitializeGameplayTags G self).LooseTagCount t
        = some (if AECRCharacter.FindMovementModeTag G self.CharacterMovement.MovementMode
                    self.CharacterMovement.CustomMovementMode = some t then 1 else 0) := by
    intro t hValid hMapped
    have hS : t ≠ G.Movement_Mode_Falling_Standard := fun h => hStd (h ▸ hMapped)
    have hJ : t ≠ G.Movement_Mode_Falling_JumpPack := fun h => hJP (h ▸ hMapped)
    have hCleared :
        ((((AECRCharacter.ClearTagMap (AECRCharacter.ClearTagMap ASC G.MovementModeTagMap)
            G.CustomMovementModeTagMap).SetLooseGameplayTagCount
              G.Movement_Mode_Falling_Standard 0).SetLooseGameplayTagCount
              G.Movement_Mode_Falling_JumpPack 0).LooseGameplayTagCount t) = 0 := by
      rw [looseCount_set_other _ _ _ _ hJ, looseCount_set_other _ _ _ _ hS,
        looseCount_clearTagMap, looseCount_clearTagMap]
      simp only [List.map_append, List.mem_append] at hMapped
      rcases hMapped with h | h
      · simp [hValid, h]
      · simp [hValid, h]
    simp only [AECRCharacter.InitializeGameplayTags, hASC, AECRCharacter.SetMovementModeTag,
      AECRCharacter.LooseTagCount, Option.map_some', AECRCharacter.SetMovementModeTagOn]
    congr 1
    cases hFind : AECRCharacter.FindMovementModeTag G self.CharacterMovement.MovementMode
        self.CharacterMovement.CustomMovementMode with
    | none => simpa using hCleared
    | some cur =>
      by_cases hCurValid : cur.IsValid = true
      · simp only [hCurValid, if_true, Option.some.injEq]
        by_cases hEq : cur = t
        · subst hEq
          simp only [if_true]
          by_cases hF : cur = G.Movement_Mode_Falling
          · simp only [hF, if_true, Bool.not_true, Bool.false_eq_true, if_false]
            split_ifs
            · exact looseCount_set_same_value _ _ _ _ (looseCount_set_same _ _ _)
            · exact looseCount_set_same_value _ _ _ _ (looseCount_set_same _ _ _)
          · simp only [hF, if_false]
            exact looseCount_set_same _ _ _
        · have hNe : t ≠ cur := fun h => hEq h.symm
          simp only [hEq, if_false]
          by_cases hF : cur = G.Movement_Mode_Falling
          · simp only [hF, if_true, Bool.not_true, Bool.false_eq_true, if_false]
            rw [hF] at hNe
            split_ifs
            · rw [looseCount_set_other _ _ _ _ hJ, looseCount_set_other _ _ _ _ hNe]
              exact hCleared
            · rw [looseCount_set_other _ _ _ _ hS, looseCount_set_other _ _ _ _ hNe]
              exact hCleared
          · simp only [hF, if_false]
            rw [looseCount_set_other _ _ _ _ hNe]
            exact hCleared
      · have hEq : cur ≠ t := fun h => hCurValid (h ▸ hValid)
        simp only [hCurValid, Bool.false_eq_true, if_false, Option.some.injEq, hEq]
        exact hCleared
  refine ⟨hAll, ?_⟩
  intro t hFind hValid
  have h := hAll t hValid (findMovementModeTag_mem G _ _ t hFind)
  simpa [hFind] using h

theorem C5_initialize_clears_movement_tags_witness :
    (AECRCharacter.InitializeGameplayTags Examples.tags Examples.fallingCharacter).LooseTagCount
        ⟨["Movement", "Mode", "Swimming"]⟩
      = some (if AECRCharacter.FindMovementModeTag Examples.tags
            Examples.fallingCharacter.CharacterMovement.MovementMode
            Examples.fallingCharacter.CharacterMovement.CustomMovementMode
              = some ⟨["Movement", "Mode", "Swimming"]⟩ then 1 else 0) ∧
    (AECRCharacter.InitializeGameplayTags Examples.tags Examples.fallingCharacter).LooseTagCount
        ⟨["Movement", "Mode", "Falling"]⟩ = some 1 :=
  ⟨(C5_initialize_clears_movement_tags Examples.tags Examples.fallingCharacter
      Examples.lingeringASC rfl (by decide) (by decide)).1 ⟨["Movement", "Mode", "Swimming"]⟩
      (by decide) (by decide),
   (C5_initialize_clears_movement_tags Examples.tags Examples.fallingCharacter
      Examples.lingeringASC rfl (by decide) (by decide)).2 ⟨["Movement", "Mode", "Falling"]⟩
      (by decide) (by decide)⟩

end InitializeTags

section IndicatorRegistry

/-- C6: for every non-null descriptor `d`, `AddIndicator(d)` records this component
as the manager of `d`; if `d` does not want non-default handling, `d` is appended at
the end of `Indicators` and `OnIndicatorAdded` is broadcast once with `d`; if it
does, `Indicators` is unchanged, `OnIndicatorAdded` is not broadcast and
`OnNonDefaultHandledIndicatorAdded` is called once with `d`. -/
theorem C6_add_indicator (self : UECRIndicatorManagerComponent) (d : UIndicatorDescriptor) :
    ∃ r, UECRIndicatorManagerComponent.AddIndicator self (some d) = Except.ok r ∧
      r.Descriptor = some { d with ManagerPtr := some self.Id } ∧
      (d.bWantsNonDefaultHandling = false →
        r.Manager.Indicators = self.Indicators ++ [d.Id] ∧
        r.Events = [IndicatorEvent.OnIndicatorAdded d.Id]) ∧
      (d.bWantsNonDefaultHandling = true →
        r.Manager.Indicators = self.Indicators ∧
        IndicatorEvent.OnIndicatorAdded d.Id ∉ r.Events ∧
        r.Events = [IndicatorEvent.OnNonDefaultHandledIndicatorAdded d.Id]) := by
  cases h : d.bWantsNonDefaultHandling with
  | false =>
    refine ⟨⟨{ self with Indicators := self.Indicators ++ [d.Id] },
      some { d with ManagerPtr := some self.Id }, [IndicatorEvent.OnIndicatorAdded d.Id]⟩,
      ?_, by simp [h], ?_, ?_⟩
    · simp [UECRIndicatorManagerComponent.AddIndicator, h]
    · intro _
      exact ⟨rfl, rfl⟩
    · intro hc
      cases hc
  | true =>
    refine ⟨⟨self, some { d with ManagerPtr := some self.Id },
      [IndicatorEvent.OnNonDefaultHandledIndicatorAdded d.Id]⟩, ?_, by simp [h], ?_, ?_⟩
    · simp [UECRIndicatorManagerComponent.AddIndicator, h]
    · intro hc
      cases hc
    · intro _
      refine ⟨rfl, ?_, rfl⟩
      simp

theorem C6_add_indicator_witness :
    (∃ r, UECRIndicatorManagerComponent.AddIndicator Examples.indicatorManager
        (some Examples.plainDescriptor) = Except.ok r ∧
      r.Manager.Indicators = [1, 2, 3] ∧ r.Events = [IndicatorEvent.OnIndicatorAdded 3]) ∧
    (∃ r, UECRIndicatorManagerComponent.AddIndicator Examples.indicatorManager
        (some Examples.customDescriptor) = Except.ok r ∧
      r.Manager.Indicators = [1, 2] ∧
      r.Events = [IndicatorEvent.OnNonDefaultHandledIndicatorAdded 4]) := by
  obtain ⟨r1, h1, _, hPlain, _⟩ :=
    C6_add_indicator Examples.indicatorManager Examples.plainDescriptor
  obtain ⟨r2, h2, _, _, hCustom⟩ :=
    C6_add_indicator Examples.indicatorManager Examples.customDescriptor
  exact ⟨⟨r1, h1, (hPlain rfl).1, (hPlain rfl).2⟩,
    ⟨r2, h2, (hCustom rfl).1, (hCustom rfl).2.2⟩⟩

theorem filter_ne_append_singleton (l : List ObjectId) (x : ObjectId) (h : x ∉ l) :
    (l ++ [x]).filter (fun y => decide (y ≠ x)) = l := by
  rw [List.filter_append]
  have hl : l.filter (fun y => decide (y ≠ x)) = l := by
    apply List.filter_eq_self.mpr
    intro a ha
    have : a ≠ x := fun hax => h (hax ▸ ha)
    simpa using this
  rw [hl]
  simp

/-- C7: for every registry state and every non-null descriptor `d` that does not
want non-default handling and is not already in `Indicators`, `AddIndicator(d)`
followed by `RemoveIndicator(d)` leaves `Indicators` equal to its value before the
two calls; and `RemoveIndicator(d)` leaves no occurrence of `d` in `Indicators`. -/
theorem C7_indicator_round_trip (self : UECRIndicatorManagerComponent)
    (d : UIndicatorDescriptor) (hDefault : d.bWantsNonDefaultHandling = false) :
    (d.Id ∉ self.Indicators →
      ∃ r, UECRIndicatorManagerComponent.AddIndicator self (some d) = Except.ok r ∧
        (UECRIndicatorManagerComponent.RemoveIndicator r.Manager r.Descriptor).Manager.Indicators
          = self.Indicators) ∧
    d.Id ∉ (UECRIndicatorManagerComponent.RemoveIndicator self (some d)).Manager.Indicators := by
  constructor
  · intro hFresh
    refine ⟨⟨{ self with Indicators := self.Indicators ++ [d.Id] },
      some { d with ManagerPtr := some self.Id }, [IndicatorEvent.OnIndicatorAdded d.Id]⟩,
      ?_, ?_⟩
    · simp [UECRIndicatorManagerComponent.AddIndicator, hDefault]
    · simp only [UECRIndicatorManagerComponent.RemoveIndicator, hDefault, Bool.false_eq_true,
        if_false]
      exact filter_ne_append_singleton self.Indicators d.Id hFresh
  · simp [UECRIndicatorManagerComponent.RemoveIndicator, hDefault]

theorem C7_indicator_round_trip_witness :
    (∃ r, UECRIndicatorManagerComponent.AddIndicator Examples.indicatorManager
        (some Examples.plainDescriptor) = Except.ok r ∧
      (UECRIndicatorManagerComponent.RemoveIndicator r.Manager r.Descriptor).Manager.Indicators
        = [1, 2]) ∧
    Examples.plainDescriptor.Id ∉
      (UECRIndicatorManagerComponent.RemoveIndicator Examples.indicatorManager
        (some Examples.plainDescriptor)).Manager.Indicators :=
  ⟨(C7_indicator_round_trip Examples.indicatorManager Examples.plainDescriptor rfl).1
      (by decide),
   (C7_indicator_round_trip Examples.indicatorManager Examples.plainDescriptor rfl).2⟩

end IndicatorRegistry

section AbilityQueue

variable {F : Type}

/-- C15: `NotifyAbilityQueueSystem` with input tag `t`: if `t` is valid,
`bListenForAbilityQueue` is true and `AbilityQueueInputTags` contains `t` exactly,
the last input tag becomes `t`, its time the current world time and the delta time
`AbilityQueueDeltaTime`; in every other case the three are reset to the empty tag,
0 and 0. Nothing else of the ability system component changes. -/
theorem C15_notify_ability_queue (ops : FloatOps F) (World : UWorld F)
    (self : UECRPawnControlComponent F) (ASC : UECRAbilitySystemComponentQueue F)
    (t : FGameplayTag) :
    (t.IsValid = true → self.bListenForAbilityQueue = true → t ∈ self.AbilityQueueInputTags →
      (UECRPawnControlComponent.NotifyAbilityQueueSystem ops World self ASC t)
          = { ASC with
              AbilityQueueSystemLastInputTag := t
              AbilityQueueSystemLastInputTagTime := World.TimeSeconds
              AbilityQueueSystemDeltaTime := self.AbilityQueueDeltaTime }) ∧
    (¬ (t.IsValid = true ∧ self.bListenForAbilityQueue = true ∧ t ∈ self.AbilityQueueInputTags) →
      (UECRPawnControlComponent.NotifyAbilityQueueSystem ops World self ASC t)
          = { ASC with
              AbilityQueueSystemLastInputTag := FGameplayTag.EmptyTag
              AbilityQueueSystemLastInputTagTime := ops.zero
              AbilityQueueSystemDeltaTime := ops.zero }) ∧
    (UECRPawnControlComponent.NotifyAbilityQueueSystem ops World self ASC t).ExplicitTagCountMap
      = ASC.ExplicitTagCountMap := by
  refine ⟨?_, ?_, ?_⟩
  · intro hValid hListen hMem
    simp [UECRPawnControlComponent.NotifyAbilityQueueSystem, HasTagExact, hValid, hListen, hMem]
  · intro hNot
    have hCond : (t.IsValid && self.bListenForAbilityQueue &&
        HasTagExact self.AbilityQueueInputTags t) = false := by
      cases hV : t.IsValid
      · simp
      · cases hL : self.bListenForAbilityQueue
        · simp
        · have hNotMem : t ∉ self.AbilityQueueInputTags := fun hm => hNot ⟨hV, hL, hm⟩
          simp [HasTagExact, hV, hNotMem]
    simp [UECRPawnControlComponent.NotifyAbilityQueueSystem, hCond]
  · unfold UECRPawnControlComponent.NotifyAbilityQueueSystem
    split_ifs <;> rfl

theorem C15_notify_ability_queue_witness :
    UECRPawnControlComponent.NotifyAbilityQueueSystem intOps Examples.world
        Examples.queueComponent Examples.queuedASC ⟨["InputTag", "Ability", "Fire"]⟩
      = { Examples.queuedASC with
          AbilityQueueSystemLastInputTag := ⟨["InputTag", "Ability", "Fire"]⟩
          AbilityQueueSystemLastInputTagTime := Examples.world.TimeSeconds
          AbilityQueueSystemDeltaTime := Examples.queueComponent.AbilityQueueDeltaTime } ∧
    UECRPawnControlComponent.NotifyAbilityQueueSystem intOps Examples.world
        Examples.queueComponent Examples.queuedASC ⟨["InputTag", "Ability", "Jump"]⟩
      = { Examples.queuedASC with
          AbilityQueueSystemLastInputTag := FGameplayTag.EmptyTag
          AbilityQueueSystemLastInputTagTime := intOps.zero
          AbilityQueueSystemDeltaTime := intOps.zero } :=
  ⟨(C15_notify_ability_queue intOps Examples.world Examples.queueComponent Examples.queuedASC
      ⟨["InputTag", "Ability", "Fire"]⟩).1 (by decide) (by decide) (by decide),
   (C15_notify_ability_queue intOps Examples.world Examples.queueComponent Examples.queuedASC
      ⟨["InputTag", "Ability", "Jump"]⟩).2.1 (by decide)⟩

end AbilityQueue

section LookStick

variable {F : Type}

/-- C17: `Input_LookStick` and `Input_LookMouse` are the same function of their
inputs: for every input value `(X, Y)`, every pair of current aim-offset
differences and every `LookYawLimit` and `LookPitchLimit`, in any world, the stick
handler returns normally with exactly the `AddControllerYawInput` and
`AddControllerPitchInput` calls of the mouse handler, in the same order and with
the same arguments; the values it passes are `X` and `Y` themselves, with no
scaling by a look rate or by the frame delta time. -/
theorem C17_look_stick_as_mouse (ops : FloatOps F) (ctx : PawnContext F) (World : UWorld F)
    (self : UECRPawnControlComponent F) (Value : FVector2D F) :
    UECRPawnControlComponent.Input_LookStick ops ctx (some World) self Value
      = Except.ok (UECRPawnControlComponent.Input_LookMouse ops ctx self Value) ∧
    (∀ t, UECRPawnControlComponent.Input_LookStick ops ctx (some World) self Value
        = Except.ok t →
      (∀ p v, Call.AddControllerYawInput p v ∈ t → v = Value.X) ∧
      (∀ p v, Call.AddControllerPitchInput p v ∈ t → v = Value.Y)) := by
  constructor
  · unfold UECRPawnControlComponent.Input_LookStick UECRPawnControlComponent.Input_LookMouse
    cases hP : ctx.Pawn with
    | none => rfl
    | some Pawn => rfl
  · intro t ht
    unfold UECRPawnControlComponent.Input_LookStick at ht
    cases hP : ctx.Pawn with
    | none =>
      simp only [hP, Except.ok.injEq] at ht
      subst ht
      simp
    | some Pawn =>
      simp only [hP, Except.ok.injEq] at ht
      subst ht
      constructor
      · intro p v
        split_ifs <;> simp
      · intro p v
        split_ifs <;> simp

theorem C17_look_stick_as_mouse_witness :
    UECRPawnControlComponent.Input_LookStick intOps Examples.playerContext (some Examples.world)
        Examples.yawLockedComponent ⟨80, 3⟩
      = Except.ok (UECRPawnControlComponent.Input_LookMouse intOps Examples.playerContext
          Examples.yawLockedComponent ⟨80, 3⟩) ∧
    (∀ p v, Call.AddControllerPitchInput p v ∈
        UECRPawnControlComponent.Input_LookMouse intOps Examples.playerContext
          Examples.yawLockedComponent ⟨80, 3⟩ → v = 3) :=
  ⟨(C17_look_stick_as_mouse intOps Examples.playerContext Examples.world
      Examples.yawLockedComponent ⟨80, 3⟩).1,
   ((C17_look_stick_as_mouse intOps Examples.playerContext Examples.world
      Examples.yawLockedComponent ⟨80, 3⟩).2 _
      (C17_look_stick_as_mouse intOps Examples.playerContext Examples.world
        Examples.yawLockedComponent ⟨80, 3⟩).1).2⟩

end LookStick

section AbilityCameraMode

variable {F : Type}

/-- C18: `ClearAbilityCameraMode(h)` resets `AbilityCameraMode` to null and the
owning handle to the default handle when `h` equals
`AbilityCameraModeOwningSpecHandle`, and otherwise changes nothing;
`SetAbilityCameraMode(m, h)` with non-null `m` sets mode and owner to `(m, h)`, and
with null `m` changes nothing; hence setting a non-null mode with `h` and then
clearing with `h` makes `DetermineCameraMode` return what it returns without an
ability camera mode, which is the pawn data's default camera mode. -/
theorem C18_camera_mode_owner (ctx : PawnContext F) (self : UECRPawnControlComponent F)
    (h : FGameplayAbilitySpecHandle) :
    (h = self.AbilityCameraModeOwningSpecHandle →
      UECRPawnControlComponent.ClearAbilityCameraMode self h
        = { self with
            AbilityCameraMode := none
            AbilityCameraModeOwningSpecHandle := FGameplayAbilitySpecHandle.Default }) ∧
    (h ≠ self.AbilityCameraModeOwningSpecHandle →
      UECRPawnControlComponent.ClearAbilityCameraMode self h = self) ∧
    (∀ m : CameraModeClass,
      UECRPawnControlComponent.SetAbilityCameraMode self (some m) h
        = { self with AbilityCameraMode := some m, AbilityCameraModeOwningSpecHandle := h }) ∧
    UECRPawnControlComponent.SetAbilityCameraMode self none h = self ∧
    (∀ m : CameraModeClass,
      UECRPawnControlComponent.DetermineCameraMode ctx
          (UECRPawnControlComponent.ClearAbilityCameraMode
            (UECRPawnControlComponent.SetAbilityCameraMode self (some m) h) h)
        = UECRPawnControlComponent.DetermineCameraMode ctx { self with AbilityCameraMode := none }) ∧
    (∀ (m : CameraModeClass) Pawn PawnExtComp PawnData, ctx.Pawn = some Pawn →
      Pawn.PawnExtComp = some PawnExtComp → PawnExtComp.PawnData = some PawnData →
      UECRPawnControlComponent.DetermineCameraMode ctx
          (UECRPawnControlComponent.ClearAbilityCameraMode
            (UECRPawnControlComponent.SetAbilityCameraMode self (some m) h) h)
        = PawnData.DefaultCameraMode) := by
  refine ⟨?_, ?_, ?_, rfl, ?_, ?_⟩
  · intro hEq
    simp [UECRPawnControlComponent.ClearAbilityCameraMode, hEq]
  · intro hNe
    simp [UECRPawnControlComponent.ClearAbilityCameraMode, Ne.symm hNe]
  · intro m
    rfl
  · intro m
    simp [UECRPawnControlComponent.ClearAbilityCameraMode,
      UECRPawnControlComponent.SetAbilityCameraMode, UECRPawnControlComponent.DetermineCameraMode]
  · intro m Pawn PawnExtComp PawnData hPawn hExt hData
    simp [UECRPawnControlComponent.ClearAbilityCameraMode,
      UECRPawnControlComponent.SetAbilityCameraMode, UECRPawnControlComponent.DetermineCameraMode,
      hPawn, hExt, hData]

theorem C18_camera_mode_owner_witness :
    UECRPawnControlComponent.ClearAbilityCameraMode Examples.abilityCameraComponent ⟨7⟩
      = { Examples.abilityCameraComponent with
          AbilityCameraMode := none
          AbilityCameraModeOwningSpecHandle := FGameplayAbilitySpecHandle.Default } ∧
    UECRPawnControlComponent.ClearAbilityCameraMode Examples.abilityCameraComponent ⟨8⟩
      = Examples.abilityCameraComponent ∧
    UECRPawnControlComponent.DetermineCameraMode Examples.playerContext
        (UECRPawnControlComponent.ClearAbilityCameraMode
          (UECRPawnControlComponent.SetAbilityCameraMode Examples.component (some 42) ⟨7⟩) ⟨7⟩)
      = some 6 :=
  ⟨(C18_camera_mode_owner Examples.playerContext Examples.abilityCameraComponent ⟨7⟩).1 rfl,
   (C18_camera_mode_owner Examples.playerContext Examples.abilityCameraComponent ⟨8⟩).2.1
     (by decide),
   (C18_camera_mode_owner Examples.playerContext Examples.component ⟨7⟩).2.2.2.2.2 42
     Examples.playerPawn ⟨2, some ⟨5, some 6, some 7⟩⟩ ⟨5, some 6, some 7⟩ rfl rfl rfl⟩

end AbilityCameraMode

section CharacterDestroy

variable {F : Type}

/-- C12: in `UninitAndDestroy`, `UninitializeAbilitySystem` is called if and only if
the ability system component exists and its avatar actor is this character;
`DetachFromControllerPendingDestroy` and `SetLifeSpan(0.1)` happen if and only if the
local role is `ROLE_Authority`; and the actor is hidden in game in every case, as
the last call. -/
theorem C12_uninit_and_destroy (self : AECRCharacterActor F) :
    (CharacterCall.UninitializeAbilitySystem ∈ AECRCharacter.UninitAndDestroy self ↔
      self.AbilitySystemComponent.isSome = true ∧
        self.AbilitySystemAvatarActor = some self.Id) ∧
    (CharacterCall.DetachFromControllerPendingDestroy ∈ AECRCharacter.UninitAndDestroy self ↔
      self.LocalRole = ENetRole.ROLE_Authority) ∧
    (CharacterCall.SetLifeSpan (1 / 10) ∈ AECRCharacter.UninitAndDestroy self ↔
      self.LocalRole = ENetRole.ROLE_Authority) ∧
    (∀ v, CharacterCall.SetLifeSpan v ∈ AECRCharacter.UninitAndDestroy self → v = 1 / 10) ∧
    (∃ t, AECRCharacter.UninitAndDestroy self = t ++ [CharacterCall.SetActorHiddenInGame true]) := by
  unfold AECRCharacter.UninitAndDestroy
  refine ⟨?_, ?_, ?_, ?_, ⟨_, rfl⟩⟩
  · cases hASC : self.AbilitySystemComponent with
    | none => split_ifs <;> simp
    | some ASC => split_ifs <;> simp_all
  · cases hASC : self.AbilitySystemComponent with
    | none => split_ifs <;> simp_all
    | some ASC => split_ifs <;> simp_all
  · cases hASC : self.AbilitySystemComponent with
    | none => split_ifs <;> simp_all
    | some ASC => split_ifs <;> simp_all
  · intro v
    cases hASC : self.AbilitySystemComponent with
    | none => split_ifs <;> simp_all
    | some ASC => split_ifs <;> simp_all

end CharacterDestroy

section Crouch

variable {F : Type}

theorem onStartCrouch_asc (G : FECRGameplayTags) (self : AECRCharacter)
    (ASC : UECRAbilitySystemComponent) (a b : F) (hASC : self.AbilitySystemComponent = some ASC) :
    (AECRCharacter.OnStartCrouch G self a b).1.AbilitySystemComponent
      = some (ASC.SetLooseGameplayTagCount G.Status_Crouching 1) := by
  simp [AECRCharacter.OnStartCrouch, hASC]

theorem onEndCrouch_asc (G : FECRGameplayTags) (self : AECRCharacter)
    (ASC : UECRAbilitySystemComponent) (a b : F) (hASC : self.AbilitySystemComponent = some ASC) :
    (AECRCharacter.OnEndCrouch G self a b).1.AbilitySystemComponent
      = some (ASC.SetLooseGameplayTagCount G.Status_Crouching 0) := by
  simp [AECRCharacter.OnEndCrouch, hASC]

theorem iterate_onStartCrouch_asc (G : FECRGameplayTags) (a b : F) (n : Nat)
    (self : AECRCharacter) (ASC : UECRAbilitySystemComponent)
    (hASC : self.AbilitySystemComponent = some ASC) :
    ∃ ASCn, ((fun s => (AECRCharacter.OnStartCrouch G s a b).1)^[n] self).AbilitySystemComponent
      = some ASCn := by
  induction n generalizing self ASC with
  | zero => exact ⟨ASC, hASC⟩
  | succ k ih =>
    rw [Function.iterate_succ_apply]
    exact ih _ _ (onStartCrouch_asc G self ASC a b hASC)

/-- C13: on a character with an ability system component, after `OnStartCrouch`
the loose count of `Status_Crouching` is 1 and after `OnEndCrouch` it is 0, whatever
it was before; for every `n >= 1`, `n` calls of `OnStartCrouch` followed by one
`OnEndCrouch` leave the count at 0; and neither call changes the count of any
other tag. -/
theorem C13_crouch_tag (G : FECRGameplayTags) (self : AECRCharacter)
    (ASC : UECRAbilitySystemComponent) (a b : F)
    (hASC : self.AbilitySystemComponent = some ASC) :
    (AECRCharacter.OnStartCrouch G self a b).1.LooseTagCount G.Status_Crouching = some 1 ∧
    (AECRCharacter.OnEndCrouch G self a b).1.LooseTagCount G.Status_Crouching = some 0 ∧
    (∀ n : Nat, 1 ≤ n →
      (AECRCharacter.OnEndCrouch G
          ((fun s => (AECRCharacter.OnStartCrouch G s a b).1)^[n] self) a b).1.LooseTagCount
        G.Status_Crouching = some 0) ∧
    (∀ u : FGameplayTag, u ≠ G.Status_Crouching →
      (AECRCharacter.OnStartCrouch G self a b).1.LooseTagCount u
        = some (ASC.LooseGameplayTagCount u) ∧
      (AECRCharacter.OnEndCrouch G self a b).1.LooseTagCount u
        = some (ASC.LooseGameplayTagCount u)) := by
  refine ⟨?_, ?_, ?_, ?_⟩
  · simp only [AECRCharacter.LooseTagCount, onStartCrouch_asc G self ASC a b hASC,
      Option.map_some']
    exact congrArg some (looseCount_set_same _ _ _)
  · simp only [AECRCharacter.LooseTagCount, onEndCrouch_asc G self ASC a b hASC,
      Option.map_some']
    exact congrArg some (looseCount_set_same _ _ _)
  · intro n _
    obtain ⟨ASCn, hn⟩ := iterate_onStartCrouch_asc G a b n self ASC hASC
    simp only [AECRCharacter.LooseTagCount, onEndCrouch_asc G _ ASCn a b hn, Option.map_some']
    exact congrArg some (looseCount_set_same _ _ _)
  · intro u hu
    constructor
    · simp only [AECRCharacter.LooseTagCount, onStartCrouch_asc G self ASC a b hASC,
        Option.map_some']
      exact congrArg some (looseCount_set_other _ _ _ _ hu)
    · simp only [AECRCharacter.LooseTagCount, onEndCrouch_asc G self ASC a b hASC,
        Option.map_some']
      exact congrArg some (looseCount_set_other _ _ _ _ hu)

theorem C13_crouch_tag_witness :
    (AECRCharacter.OnStartCrouch Examples.tags Examples.fallingCharacter
        (25 : Int) 25).1.LooseTagCount Examples.tags.Status_Crouching = some 1 ∧
    (AECRCharacter.OnEndCrouch Examples.tags
        ((fun s => (AECRCharacter.OnStartCrouch Examples.tags s (25 : Int) 25).1)^[3]
          Examples.fallingCharacter) (25 : Int) 25).1.LooseTagCount
      Examples.tags.Status_Crouching = some 0 :=
  ⟨(C13_crouch_tag Examples.tags Examples.fallingCharacter Examples.lingeringASC
      (25 : Int) 25 rfl).1,
   (C13_crouch_tag Examples.tags Examples.fallingCharacter Examples.lingeringASC
      (25 : Int) 25 rfl).2.2.1 3 (by decide)⟩

end Crouch

section AbilitySets

variable {F : Type}

theorem grantAbilitySets_eq (AbilitySets : List (Option ObjectId)) :
    (AECRCharacter.GrantAbilitySets AbilitySets : List (CharacterCall F))
      = (AbilitySets.filterMap id).map CharacterCall.GiveToAbilitySystem := by
  induction AbilitySets with
  | nil => rfl
  | cons x rest ih =>
    cases x with
    | none => simpa [AECRCharacter.GrantAbilitySets] using ih
    | some s => simp [AECRCharacter.GrantAbilitySets, ih]

/-- C14: when the local role is `ROLE_Authority` and `PawnData` is set,
`InitPawnDataAndAbilities` makes the `GiveToAbilitySystem` calls for the non-null
common character ability sets of the game state in array order (none if the game
state is not an `AECRGameState`), then for the non-null entries of
`PawnData->AbilitySets` in array order, each once, and after them sends the
`ECRAbilitiesReady` extension event; when the local role is not `ROLE_Authority`
no ability set is granted and no event is sent. -/
theorem C14_grant_order (World : UWorld F) (self : AECRCharacterActor F) :
    (self.LocalRole = ENetRole.ROLE_Authority →
      ∀ AbilitySets, self.PawnData = some AbilitySets →
        AECRCharacter.InitPawnDataAndAbilities World self
          = Except.ok ([CharacterCall.MarkPropertyDirty "PawnData"] ++
              (((World.ECRGameState.getD []).filterMap id).map CharacterCall.GiveToAbilitySystem
                ++ (AbilitySets.filterMap id).map CharacterCall.GiveToAbilitySystem) ++
              [CharacterCall.SendGameFrameworkComponentExtensionEvent self.Id "ECRAbilitiesReady",
               CharacterCall.ForceNetUpdate])) ∧
    (self.LocalRole ≠ ENetRole.ROLE_Authority →
      ∃ t, AECRCharacter.InitPawnDataAndAbilities World self = Except.ok t ∧
        (∀ s, CharacterCall.GiveToAbilitySystem s ∉ t) ∧
        (∀ r e, CharacterCall.SendGameFrameworkComponentExtensionEvent r e ∉ t)) := by
  constructor
  · intro hRole AbilitySets hData
    unfold AECRCharacter.InitPawnDataAndAbilities
    simp only [hRole, hData, ne_eq, not_true_eq_false, if_false, Option.isSome_some, if_true,
      List.nil_append]
    cases hGS : World.ECRGameState with
    | none => simp [grantAbilitySets_eq]
    | some Common => simp [grantAbilitySets_eq]
  · intro hRole
    unfold AECRCharacter.InitPawnDataAndAbilities
    simp only [ne_eq, hRole, not_false_eq_true, if_true]
    refine ⟨_, rfl, ?_, ?_⟩
    · intro s
      split_ifs <;> simp
    · intro r e
      split_ifs <;> simp

theorem C14_grant_order_witness :
    AECRCharacter.InitPawnDataAndAbilities Examples.world Examples.serverCharacter
      = Except.ok [CharacterCall.MarkPropertyDirty "PawnData",
          CharacterCall.GiveToAbilitySystem 31, CharacterCall.GiveToAbilitySystem 32,
          CharacterCall.GiveToAbilitySystem 21, CharacterCall.GiveToAbilitySystem 22,
          CharacterCall.SendGameFrameworkComponentExtensionEvent 1 "ECRAbilitiesReady",
          CharacterCall.ForceNetUpdate] ∧
    (∃ t, AECRCharacter.InitPawnDataAndAbilities Examples.world Examples.clientCharacter
        = Except.ok t ∧
      (∀ s, CharacterCall.GiveToAbilitySystem s ∉ t) ∧
      (∀ r e, CharacterCall.SendGameFrameworkComponentExtensionEvent r e ∉ t)) :=
  ⟨(C14_grant_order Examples.world Examples.serverCharacter).1 rfl
      [some 21, none, some 22] rfl,
   (C14_grant_order Examples.world Examples.clientCharacter).2 (by decide)⟩

end AbilitySets

section MovementModeChanged

variable {F : Type}

theorem setMovementModeTag_asc_isSome (G : FECRGameplayTags) (c : AECRCharacter)
    (m : EMovementMode) (k : Nat) (b : Bool) :
    (AECRCharacter.SetMovementModeTag G c m k b).AbilitySystemComponent.isSome
      = c.AbilitySystemComponent.isSome := by
  unfold AECRCharacter.SetMovementModeTag
  cases h : c.AbilitySystemComponent <;> simp [h]

theorem onMovementModeChanged_calls (ops : FloatArith F) (G : FECRGameplayTags) (World : UWorld F)
    (self : AECRCharacterActor F) (PrevMovementMode : EMovementMode) (PreviousCustomMode : Nat) :
    (AECRCharacter.OnMovementModeChanged ops G World self PrevMovementMode PreviousCustomMode).2
      = [CharacterCall.Super_OnMovementModeChanged PrevMovementMode PreviousCustomMode] ++
        (if self.CharacterMovement.MovementMode = EMovementMode.MOVE_Walking ∧
            PrevMovementMode = EMovementMode.MOVE_Falling ∧
            self.AbilitySystemComponent.isSome = true then
          [CharacterCall.SendGameplayEventToActor self.Id G.GameplayEvent_Landed
            ⟨G.GameplayEvent_Landed, some self.Id,
              ops.sub self.StartedFallingZ self.ActorLocationZ⟩]
        else []) ++
        (if self.AbilitySystemComponent.isSome = true then
          [CharacterCall.SendGameplayEventToActor self.Id G.GameplayEvent_MovementModeChanged
            ⟨G.GameplayEvent_MovementModeChanged, some self.Id, ops.zero⟩]
        else []) := by
  have hS : (AECRCharacter.SetMovementModeTag G
        (AECRCharacter.SetMovementModeTag G self.toAECRCharacter PrevMovementMode
          PreviousCustomMode false) self.CharacterMovement.MovementMode
          self.CharacterMovement.CustomMovementMode true).AbilitySystemComponent.isSome
      = self.AbilitySystemComponent.isSome := by
    rw [setMovementModeTag_asc_isSome, setMovementModeTag_asc_isSome]
  unfold AECRCharacter.OnMovementModeChanged
  simp only []
  by_cases hF : self.CharacterMovement.MovementMode = EMovementMode.MOVE_Falling
  · simp only [hF, if_true] at hS ⊢
    cases hA : (AECRCharacter.SetMovementModeTag G
        (AECRCharacter.SetMovementModeTag G self.toAECRCharacter PrevMovementMode
          PreviousCustomMode false) EMovementMode.MOVE_Falling
          self.CharacterMovement.CustomMovementMode true).AbilitySystemComponent with
    | none =>
      rw [hA] at hS
      simp [← hS]
    | some ASC =>
      rw [hA] at hS
      simp [← hS]
  · simp only [hF, if_false] at hS ⊢
    cases hA : (AECRCharacter.SetMovementModeTag G
        (AECRCharacter.SetMovementModeTag G self.toAECRCharacter PrevMovementMode
          PreviousCustomMode false) self.CharacterMovement.MovementMode
          self.CharacterMovement.CustomMovementMode true).AbilitySystemComponent with
    | none =>
      rw [hA] at hS
      simp only [← hS]
      split_ifs <;> simp_all
    | some ASC =>
      rw [hA] at hS
      simp only [← hS]
      split_ifs <;> simp_all
/-- C11: `OnMovementModeChanged` sends a `GameplayEvent_Landed` event if and only if
the new movement mode is `MOVE_Walking`, the previous mode was `MOVE_Falling` and
the character has an ability system component; that event targets the character
and its magnitude is `StartedFallingZ` minus the actor's current Z; and whenever
the ability system component exists, a `GameplayEvent_MovementModeChanged` event
is sent once, as the last call, after any landing event. The two event tags of the
tag table are taken to be distinct. -/
theorem C11_landing_event (ops : FloatArith F) (G : FECRGameplayTags) (World : UWorld F)
    (self : AECRCharacterActor F) (PrevMovementMode : EMovementMode) (PreviousCustomMode : Nat)
    (hTags : G.GameplayEvent_Landed ≠ G.GameplayEvent_MovementModeChanged) :
    ((∃ a p, CharacterCall.SendGameplayEventToActor a G.GameplayEvent_Landed p ∈
        (AECRCharacter.OnMovementModeChanged ops G World self PrevMovementMode
          PreviousCustomMode).2) ↔
      (self.CharacterMovement.MovementMode = EMovementMode.MOVE_Walking ∧
        PrevMovementMode = EMovementMode.MOVE_Falling ∧
        self.AbilitySystemComponent.isSome = true)) ∧
    (∀ a p, CharacterCall.SendGameplayEventToActor a G.GameplayEvent_Landed p ∈
        (AECRCharacter.OnMovementModeChanged ops G World self PrevMovementMode
          PreviousCustomMode).2 →
      a = self.Id ∧ p.EventTag = G.GameplayEvent_Landed ∧ p.Target = some self.Id ∧
        p.EventMagnitude = ops.sub self.StartedFallingZ self.ActorLocationZ) ∧
    (self.AbilitySystemComponent.isSome = true →
      ∃ pre, (AECRCharacter.OnMovementModeChanged ops G World self PrevMovementMode
          PreviousCustomMode).2
          = pre ++ [CharacterCall.SendGameplayEventToActor self.Id
              G.GameplayEvent_MovementModeChanged
              ⟨G.GameplayEvent_MovementModeChanged, some self.Id, ops.zero⟩] ∧
        ∀ a p, CharacterCall.SendGameplayEventToActor a G.GameplayEvent_MovementModeChanged p
          ∉ pre) ∧
    (self.AbilitySystemComponent.isSome = false →
      ∀ a e p, CharacterCall.SendGameplayEventToActor a e p ∉
        (AECRCharacter.OnMovementModeChanged ops G World self PrevMovementMode
          PreviousCustomMode).2) := by
  have hTags2 : G.GameplayEvent_MovementModeChanged ≠ G.GameplayEvent_Landed := Ne.symm hTags
  rw [onMovementModeChanged_calls]
  refine ⟨?_, ?_, ?_, ?_⟩
  · constructor
    · rintro ⟨a, p, hMem⟩
      by_cases hC : self.CharacterMovement.MovementMode = EMovementMode.MOVE_Walking ∧
          PrevMovementMode = EMovementMode.MOVE_Falling ∧
          self.AbilitySystemComponent.isSome = true
      · exact hC
      · exfalso
        simp only [hC, if_false, List.append_nil] at hMem
        split_ifs at hMem <;> simp [hTags] at hMem
    · intro hC
      refine ⟨self.Id, ⟨G.GameplayEvent_Landed, some self.Id,
        ops.sub self.StartedFallingZ self.ActorLocationZ⟩, ?_⟩
      simp [hC]
  · intro a p hMem
    split_ifs at hMem <;> simp [hTags] at hMem <;>
      (obtain ⟨rfl, rfl⟩ := hMem; exact ⟨rfl, rfl, rfl, rfl⟩)
  · intro hASC
    simp only [hASC, if_true, and_true]
    refine ⟨_, rfl, ?_⟩
    intro a p
    split_ifs <;> simp [hTags2]
  · intro hASC
    simp [hASC]

theorem C11_landing_event_witness :
    (∃ a p, CharacterCall.SendGameplayEventToActor a Examples.tags.GameplayEvent_Landed p ∈
      (AECRCharacter.OnMovementModeChanged intArith Examples.tags Examples.world
        Examples.landingCharacter EMovementMode.MOVE_Falling 0).2) ∧
    (AECRCharacter.OnMovementModeChanged intArith Examples.tags Examples.world
        Examples.landingCharacter EMovementMode.MOVE_Falling 0).2
      = [CharacterCall.Super_OnMovementModeChanged EMovementMode.MOVE_Falling 0,
         CharacterCall.SendGameplayEventToActor 1 Examples.tags.GameplayEvent_Landed
           ⟨Examples.tags.GameplayEvent_Landed, some 1, 800⟩,
         CharacterCall.SendGameplayEventToActor 1 Examples.tags.GameplayEvent_MovementModeChanged
           ⟨Examples.tags.GameplayEvent_MovementModeChanged, some 1, 0⟩] :=
  ⟨((C11_landing_event intArith Examples.tags Examples.world Examples.landingCharacter
      EMovementMode.MOVE_Falling 0 (by decide)).1).mpr ⟨rfl, rfl, rfl⟩,
   by decide⟩

end MovementModeChanged

section MovementTagInvariant
variable {F : Type}

theorem tagsCleared_of_clear (G : FECRGameplayTags) (ASC : UECRAbilitySystemComponent)
    (m : EMovementMode) (k : Nat)
    (hStd : G.Movement_Mode_Falling_Standard ∉ G.MovementModeTags)
    (hJP : G.Movement_Mode_Falling_JumpPack ∉ G.MovementModeTags)
    (hInv : TagsMirror G ASC m k) :
    TagsCleared G (AECRCharacter.SetMovementModeTagOn G ASC m k false) := by
  obtain ⟨hMap, hSub, _⟩ := hInv
  unfold AECRCharacter.SetMovementModeTagOn
  cases hFind : AECRCharacter.FindMovementModeTag G m k with
  | none =>
    refine ⟨fun t hv ht => ?_, ?_, ?_⟩
    · simpa [hFind] using hMap t hv ht
    · exact (hSub (by simp [hFind])).1
    · exact (hSub (by simp [hFind])).2
  | some cur =>
    have hCurMem : cur ∈ G.MovementModeTags := findMovementModeTag_mem G m k cur hFind
    have hSC : G.Movement_Mode_Falling_Standard ≠ cur := fun h => hStd (h ▸ hCurMem)
    have hJC : G.Movement_Mode_Falling_JumpPack ≠ cur := fun h => hJP (h ▸ hCurMem)
    by_cases hValid : cur.IsValid = true
    · simp only [hValid, if_true, Bool.false_eq_true, if_false, Bool.not_false]
      have hMapped : ∀ t : FGameplayTag, t.IsValid = true → t ∈ G.MovementModeTags →
          (ASC.SetLooseGameplayTagCount cur 0).LooseGameplayTagCount t = 0 := by
        intro t hv ht
        by_cases hEq : t = cur
        · subst hEq
          exact looseCount_set_same _ _ _
        · rw [looseCount_set_other _ _ _ _ hEq, hMap t hv ht, hFind]
          have : ¬ (some cur = some t) := fun h => hEq (Option.some.inj h).symm
          simp [this]
      by_cases hF : cur = G.Movement_Mode_Falling
      · simp only [hF, if_true]
        rw [hF] at hMapped
        refine ⟨fun t hv ht => ?_, ?_, ?_⟩
        · have hS : t ≠ G.Movement_Mode_Falling_Standard := fun h => hStd (h ▸ ht)
          have hJ : t ≠ G.Movement_Mode_Falling_JumpPack := fun h => hJP (h ▸ ht)
          rw [looseCount_set_other _ _ _ _ hJ, looseCount_set_other _ _ _ _ hS]
          exact hMapped t hv ht
        · exact looseCount_set_same_value _ _ _ _ (looseCount_set_same _ _ _)
        · exact looseCount_set_same _ _ _
      · simp only [hF, if_false]
        have hNotFalling : ¬ (AECRCharacter.FindMovementModeTag G m k
            = some G.Movement_Mode_Falling ∧ G.Movement_Mode_Falling.IsValid = true) := by
          rintro ⟨h, _⟩
          rw [hFind] at h
          exact hF (Option.some.inj h)
        refine ⟨hMapped, ?_, ?_⟩
        · rw [looseCount_set_other _ _ _ _ hSC]
          exact (hSub hNotFalling).1
        · rw [looseCount_set_other _ _ _ _ hJC]
          exact (hSub hNotFalling).2
    · simp only [hValid, Bool.false_eq_true, if_false]
      have hNotFalling : ¬ (AECRCharacter.FindMovementModeTag G m k
          = some G.Movement_Mode_Falling ∧ G.Movement_Mode_Falling.IsValid = true) := by
        rintro ⟨h, hv⟩
        rw [hFind] at h
        exact hValid ((Option.some.inj h) ▸ hv)
      refine ⟨fun t hv ht => ?_, (hSub hNotFalling).1, (hSub hNotFalling).2⟩
      rw [hMap t hv ht, hFind]
      have : ¬ (some cur = some t) := fun h => hValid ((Option.some.inj h) ▸ hv)
      simp [this]

theorem tagsMirror_of_set (G : FECRGameplayTags) (ASC : UECRAbilitySystemComponent)
    (m : EMovementMode) (k : Nat)
    (hStd : G.Movement_Mode_Falling_Standard ∉ G.MovementModeTags)
    (hJP : G.Movement_Mode_Falling_JumpPack ∉ G.MovementModeTags)
    (hSJ : G.Movement_Mode_Falling_Standard ≠ G.Movement_Mode_Falling_JumpPack)
    (hClr : TagsCleared G ASC) :
    TagsMirror G (AECRCharacter.SetMovementModeTagOn G ASC m k true) m k := by
  obtain ⟨hMap, hS0, hJ0⟩ := hClr
  unfold TagsMirror AECRCharacter.SetMovementModeTagOn
  cases hFind : AECRCharacter.FindMovementModeTag G m k with
  | none =>
    refine ⟨fun t hv ht => ?_, fun _ => ⟨hS0, hJ0⟩, Or.inl hS0⟩
    simpa using hMap t hv ht
  | some cur =>
    have hCurMem : cur ∈ G.MovementModeTags := findMovementModeTag_mem G m k cur hFind
    have hSC : G.Movement_Mode_Falling_Standard ≠ cur := fun h => hStd (h ▸ hCurMem)
    have hJC : G.Movement_Mode_Falling_JumpPack ≠ cur := fun h => hJP (h ▸ hCurMem)
    by_cases hValid : cur.IsValid = true
    · simp only [hValid, if_true, Bool.not_true, Bool.false_eq_true, if_false]
      have hMapped : ∀ t : FGameplayTag, t.IsValid = true → t ∈ G.MovementModeTags →
          (ASC.SetLooseGameplayTagCount cur 1).LooseGameplayTagCount t
            = if some cur = some t then 1 else 0 := by
        intro t hv ht
        by_cases hEq : t = cur
        · subst hEq
          simp [looseCount_set_same]
        · rw [looseCount_set_other _ _ _ _ hEq, hMap t hv ht]
          have : ¬ (some cur = some t) := fun h => hEq (Option.some.inj h).symm
          simp [this]
      by_cases hF : cur = G.Movement_Mode_Falling
      · simp only [hF, if_true]
        rw [hF] at hMapped hSC hJC
        split_ifs
        · refine ⟨fun t hv ht => ?_, fun hnf => ?_, Or.inl ?_⟩
          · have hJ : t ≠ G.Movement_Mode_Falling_JumpPack := fun h => hJP (h ▸ ht)
            rw [looseCount_set_other _ _ _ _ hJ]
            exact hMapped t hv ht
          · exact absurd ⟨trivial, hF ▸ hValid⟩ hnf
          · rw [looseCount_set_other _ _ _ _ hSJ, looseCount_set_other _ _ _ _ hSC]
            exact hS0
        · refine ⟨fun t hv ht => ?_, fun hnf => ?_, Or.inr ?_⟩
          · have hS : t ≠ G.Movement_Mode_Falling_Standard := fun h => hStd (h ▸ ht)
            rw [looseCount_set_other _ _ _ _ hS]
            exact hMapped t hv ht
          · exact absurd ⟨trivial, hF ▸ hValid⟩ hnf
          · rw [looseCount_set_other _ _ _ _ (Ne.symm hSJ), looseCount_set_other _ _ _ _ hJC]
            exact hJ0
      · simp only [hF, if_false]
        have hS1 : (ASC.SetLooseGameplayTagCount cur 1).LooseGameplayTagCount
            G.Movement_Mode_Falling_Standard = 0 := by
          rw [looseCount_set_other _ _ _ _ hSC]
          exact hS0
        have hJ1 : (ASC.SetLooseGameplayTagCount cur 1).LooseGameplayTagCount
            G.Movement_Mode_Falling_JumpPack = 0 := by
          rw [looseCount_set_other _ _ _ _ hJC]
          exact hJ0
        exact ⟨hMapped, fun _ => ⟨hS1, hJ1⟩, Or.inl hS1⟩
    · simp only [hValid, Bool.false_eq_true, if_false]
      refine ⟨fun t hv ht => ?_, fun _ => ⟨hS0, hJ0⟩, Or.inl hS0⟩
      rw [hMap t hv ht]
      have : ¬ (some cur = some t) := fun h => hValid ((Option.some.inj h) ▸ hv)
      simp [this]

theorem tagsCleared_init (G : FECRGameplayTags) (ASC : UECRAbilitySystemComponent)
    (hStd : G.Movement_Mode_Falling_Standard ∉ G.MovementModeTags)
    (hJP : G.Movement_Mode_Falling_JumpPack ∉ G.MovementModeTags) :
    TagsCleared G
      (((AECRCharacter.ClearTagMap (AECRCharacter.ClearTagMap ASC G.MovementModeTagMap)
        G.CustomMovementModeTagMap).SetLooseGameplayTagCount
          G.Movement_Mode_Falling_Standard 0).SetLooseGameplayTagCount
          G.Movement_Mode_Falling_JumpPack 0) := by
  refine ⟨fun t hv ht => ?_, ?_, ?_⟩
  · have hS : t ≠ G.Movement_Mode_Falling_Standard := fun h => hStd (h ▸ ht)
    have hJ : t ≠ G.Movement_Mode_Falling_JumpPack := fun h => hJP (h ▸ ht)
    rw [looseCount_set_other _ _ _ _ hJ, looseCount_set_other _ _ _ _ hS,
      looseCount_clearTagMap, looseCount_clearTagMap]
    simp only [FECRGameplayTags.MovementModeTags, List.map_append, List.mem_append] at ht
    rcases ht with h | h
    · simp [hv, h]
    · simp [hv, h]
  · exact looseCount_set_same_value _ _ _ _ (looseCount_set_same _ _ _)
  · exact looseCount_set_same _ _ _

theorem tagsMirror_tagWrite (G : FECRGameplayTags) (ASC : UECRAbilitySystemComponent)
    (m : EMovementMode) (k : Nat) (u : FGameplayTag) (n : Nat)
    (hu : G.IsMovementTag u = false) (hInv : TagsMirror G ASC m k) :
    TagsMirror G (ASC.SetLooseGameplayTagCount u n) m k := by
  simp only [FECRGameplayTags.IsMovementTag, Bool.or_eq_false_iff, decide_eq_false_iff_not] at hu
  obtain ⟨⟨hMem, hS⟩, hJ⟩ := hu
  have hS' : G.Movement_Mode_Falling_Standard ≠ u := fun h => hS h.symm
  have hJ' : G.Movement_Mode_Falling_JumpPack ≠ u := fun h => hJ h.symm
  obtain ⟨hMap, hSub, hOne⟩ := hInv
  refine ⟨fun t hv ht => ?_, fun hnf => ?_, ?_⟩
  · have hne : t ≠ u := fun h => hMem (h ▸ ht)
    rw [looseCount_set_other _ _ _ _ hne]
    exact hMap t hv ht
  · rw [looseCount_set_other _ _ _ _ hS', looseCount_set_other _ _ _ _ hJ']
    exact hSub hnf
  · rw [looseCount_set_other _ _ _ _ hS', looseCount_set_other _ _ _ _ hJ']
    exact hOne

theorem changeMovementMode_tags (ops : FloatArith F) (G : FECRGameplayTags) (World : UWorld F)
    (self : AECRCharacterActor F) (ASC : UECRAbilitySystemComponent)
    (NewMovementMode : EMovementMode) (NewCustomMode : Nat)
    (hASC : self.AbilitySystemComponent = some ASC) :
    (AECRCharacter.ChangeMovementMode ops G World self NewMovementMode
        NewCustomMode).AbilitySystemComponent
      = some (AECRCharacter.SetMovementModeTagOn G
          (AECRCharacter.SetMovementModeTagOn G ASC self.CharacterMovement.MovementMode
            self.CharacterMovement.CustomMovementMode false)
          NewMovementMode NewCustomMode true) ∧
    (AECRCharacter.ChangeMovementMode ops G World self NewMovementMode
        NewCustomMode).CharacterMovement = ⟨NewMovementMode, NewCustomMode⟩ := by
  unfold AECRCharacter.ChangeMovementMode AECRCharacter.OnMovementModeChanged
  simp only [AECRCharacter.SetMovementModeTag, hASC]
  constructor <;> split_ifs <;> rfl

theorem initializeGameplayTagsOf_tags (G : FECRGameplayTags) (self : AECRCharacterActor F)
    (ASC : UECRAbilitySystemComponent) (hASC : self.AbilitySystemComponent = some ASC) :
    (AECRCharacter.InitializeGameplayTagsOf G self).AbilitySystemComponent
      = some (AECRCharacter.SetMovementModeTagOn G
          (((AECRCharacter.ClearTagMap (AECRCharacter.ClearTagMap ASC G.MovementModeTagMap)
            G.CustomMovementModeTagMap).SetLooseGameplayTagCount
              G.Movement_Mode_Falling_Standard 0).SetLooseGameplayTagCount
              G.Movement_Mode_Falling_JumpPack 0)
          self.CharacterMovement.MovementMode self.CharacterMovement.CustomMovementMode true) ∧
    (AECRCharacter.InitializeGameplayTagsOf G self).CharacterMovement
      = self.CharacterMovement := by
  simp [AECRCharacter.InitializeGameplayTagsOf, AECRCharacter.InitializeGameplayTags, hASC,
    AECRCharacter.SetMovementModeTag]

/-- C16: starting from the state left by `InitializeGameplayTags` and applying any
sequence of movement mode changes, each notified to `OnMovementModeChanged` with
the mode that was current before the change, with no other writer of the movement
tags, in every reachable state each valid tag that is a value of
`MovementModeTagMap` or `CustomMovementModeTagMap` has loose count 1 if it is the
tag mapped from the current movement mode and 0 otherwise, and at most one of
`Movement_Mode_Falling_Standard` and `Movement_Mode_Falling_JumpPack` has a
non-zero count. The two sub-tags of the tag table are taken to be distinct and
not to be values of the two maps. -/
theorem C16_movement_tags_mirror (ops : FloatArith F) (G : FECRGameplayTags)
    (self : AECRCharacterActor F) (events : List (FCharacterEvent F))
    (hASC : self.AbilitySystemComponent.isSome = true)
    (hStd : G.Movement_Mode_Falling_Standard ∉ G.MovementModeTags)
    (hJP : G.Movement_Mode_Falling_JumpPack ∉ G.MovementModeTags)
    (hSJ : G.Movement_Mode_Falling_Standard ≠ G.Movement_Mode_Falling_JumpPack)
    (hEvents : ∀ e ∈ events, e.LeavesMovementTags G = true) :
    ∃ ASC,
      (AECRCharacter.RunEvents ops G (AECRCharacter.InitializeGameplayTagsOf G self)
        events).AbilitySystemComponent = some ASC ∧
      (∀ t : FGameplayTag, t.IsValid = true → t ∈ G.MovementModeTags →
        ASC.LooseGameplayTagCount t
          = if AECRCharacter.FindMovementModeTag G
                (AECRCharacter.RunEvents ops G (AECRCharacter.InitializeGameplayTagsOf G self)
                  events).CharacterMovement.MovementMode
                (AECRCharacter.RunEvents ops G (AECRCharacter.InitializeGameplayTagsOf G self)
                  events).CharacterMovement.CustomMovementMode = some t then 1 else 0) ∧
      (ASC.LooseGameplayTagCount G.Movement_Mode_Falling_Standard = 0 ∨
        ASC.LooseGameplayTagCount G.Movement_Mode_Falling_JumpPack = 0) := by
  have hStep : ∀ (evs : List (FCharacterEvent F)) (s : AECRCharacterActor F),
      (∀ e ∈ evs, e.LeavesMovementTags G = true) →
      (∃ ASC, s.AbilitySystemComponent = some ASC ∧
        TagsMirror G ASC s.CharacterMovement.MovementMode
          s.CharacterMovement.CustomMovementMode) →
      ∃ ASC, (AECRCharacter.RunEvents ops G s evs).AbilitySystemComponent = some ASC ∧
        TagsMirror G ASC (AECRCharacter.RunEvents ops G s evs).CharacterMovement.MovementMode
          (AECRCharacter.RunEvents ops G s evs).CharacterMovement.CustomMovementMode := by
    intro evs
    induction evs with
    | nil =>
      intro s _ h
      exact h
    | cons e rest ih =>
      intro s hAll hInv
      obtain ⟨ASC, hS, hM⟩ := hInv
      have hRest : ∀ e' ∈ rest, e'.LeavesMovementTags G = true :=
        fun e' he' => hAll e' (List.mem_cons_of_mem _ he')
      have hE : e.LeavesMovementTags G = true := hAll e (List.mem_cons_self _ _)
      show ∃ ASC, (AECRCharacter.RunEvents ops G (AECRCharacter.ApplyEvent ops G s e)
          rest).AbilitySystemComponent = some ASC ∧ _
      apply ih _ hRest
      cases e with
      | MovementModeChange World z m k =>
        obtain ⟨h1, h2⟩ := changeMovementMode_tags ops G World
          { s with ActorLocationZ := z } ASC m k hS
        refine ⟨_, h1, ?_⟩
        simp only [AECRCharacter.ApplyEvent, h2]
        exact tagsMirror_of_set G _ m k hStd hJP hSJ
          (tagsCleared_of_clear G ASC _ _ hStd hJP hM)
      | TagWrite u n =>
        have hu : G.IsMovementTag u = false := by
          simpa [FCharacterEvent.LeavesMovementTags] using hE
        refine ⟨ASC.SetLooseGameplayTagCount u n, ?_, ?_⟩
        · simp [AECRCharacter.ApplyEvent, hS]
        · have hMove : (AECRCharacter.ApplyEvent ops G s
              (FCharacterEvent.TagWrite u n)).CharacterMovement = s.CharacterMovement := by
            simp [AECRCharacter.ApplyEvent, hS]
          rw [hMove]
          exact tagsMirror_tagWrite G ASC _ _ u n hu hM
  have hInit : ∃ ASC, (AECRCharacter.InitializeGameplayTagsOf G self).AbilitySystemComponent
        = some ASC ∧
      TagsMirror G ASC
        (AECRCharacter.InitializeGameplayTagsOf G self).CharacterMovement.MovementMode
        (AECRCharacter.InitializeGameplayTagsOf G self).CharacterMovement.CustomMovementMode := by
    cases hA : self.AbilitySystemComponent with
    | none => simp [hA] at hASC
    | some ASC0 =>
      obtain ⟨h1, h2⟩ := initializeGameplayTagsOf_tags G self ASC0 hA
      refine ⟨_, h1, ?_⟩
      rw [h2]
      exact tagsMirror_of_set G _ _ _ hStd hJP hSJ (tagsCleared_init G ASC0 hStd hJP)
  obtain ⟨ASC, hS, hM⟩ := hStep events _ hEvents hInit
  exact ⟨ASC, hS, hM.1, hM.2.2⟩

theorem C16_movement_tags_mirror_witness :
    ∃ ASC,
      (AECRCharacter.RunEvents intArith Examples.tags
        (AECRCharacter.InitializeGameplayTagsOf Examples.tags Examples.serverCharacter)
        Examples.movementEvents).AbilitySystemComponent = some ASC ∧
      (∀ t : FGameplayTag, t.IsValid = true → t ∈ Examples.tags.MovementModeTags →
        ASC.LooseGameplayTagCount t
          = if AECRCharacter.FindMovementModeTag Examples.tags
                (AECRCharacter.RunEvents intArith Examples.tags
                  (AECRCharacter.InitializeGameplayTagsOf Examples.tags Examples.serverCharacter)
                  Examples.movementEvents).CharacterMovement.MovementMode
                (AECRCharacter.RunEvents intArith Examples.tags
                  (AECRCharacter.InitializeGameplayTagsOf Examples.tags Examples.serverCharacter)
                  Examples.movementEvents).CharacterMovement.CustomMovementMode = some t
            then 1 else 0) ∧
      (ASC.LooseGameplayTagCount Examples.tags.Movement_Mode_Falling_Standard = 0 ∨
        ASC.LooseGameplayTagCount Examples.tags.Movement_Mode_Falling_JumpPack = 0) :=
  C16_movement_tags_mirror intArith Examples.tags Examples.serverCharacter
    Examples.movementEvents rfl (by decide) (by decide) (by decide) (by decide)

end MovementTagInvariant

end ECR
